import Mathlib

/-!
Shallow embedding of the ledger core of `src/db/database.py`.

The four SQLite relations (`users`, `payments`, `transfers`, `transactions`)
become lists of records held in a `DBState`; `AUTOINCREMENT` ids become
explicit counters; `datetime('now')` timestamps become a `Nat` parameter `t`
supplied to each operation.  Every balance-mutating method of the `Database`
class runs inside one `BEGIN`/`commit` unit with rollback on failure, so each
is embedded as a pure function `DBState → result × DBState` that returns the
original state on every failure path.
-/

namespace StarBot

/-- The `type` column of the `transactions` table:
`CHECK(type IN ('purchase', 'gift_in', 'gift_out', 'refund'))`. -/
inductive TxType
  | purchase
  | gift_in
  | gift_out
  | refund
deriving DecidableEq, Repr

/-- A row of the `users` table. -/
structure User where
  user_id : Nat
  username : Option String
  balance : Int
  created_at : Nat
  updated_at : Nat
deriving DecidableEq, Repr

/-- A row of the `payments` table (`charge_id` is declared `UNIQUE`). -/
structure Payment where
  id : Nat
  user_id : Nat
  amount : Int
  currency : String
  charge_id : String
  refunded : Bool
  created_at : Nat
deriving DecidableEq, Repr

/-- A row of the `transfers` table. -/
structure Transfer where
  id : Nat
  from_user_id : Nat
  to_user_id : Nat
  amount : Int
  created_at : Nat
deriving DecidableEq, Repr

/-- A row of the `transactions` table (the audit ledger). -/
structure Txn where
  id : Nat
  user_id : Nat
  type : TxType
  amount : Int
  related_user_id : Option Nat
  charge_id : Option String
  description : Option String
  balance_after : Option Int
  created_at : Nat
deriving DecidableEq, Repr

/-- The whole database: the four relations plus the `AUTOINCREMENT`
counters of the three tables that have one. -/
structure DBState where
  users : List User
  payments : List Payment
  transfers : List Transfer
  transactions : List Txn
  next_payment_id : Nat
  next_transfer_id : Nat
  next_txn_id : Nat
deriving DecidableEq, Repr

/-- The state right after `Database.init`: empty tables, counters at 1
(SQLite `AUTOINCREMENT` hands out 1 first). -/
def initState : DBState := ⟨[], [], [], [], 1, 1, 1⟩

/-- `SELECT * FROM users WHERE user_id=?` (the primary key makes at most one
row match; the embedding takes the first). -/
def findUser (s : DBState) (user_id : Nat) : Option User :=
  s.users.find? (fun u => u.user_id == user_id)

/-- SQL `COALESCE(new, old)`: the first non-NULL of the two. -/
def coalesceName (new old : Option String) : Option String :=
  match new with
  | some x => some x
  | none => old

/-- `Database._ensure_user_tx`: the upsert
`INSERT INTO users(user_id, username) VALUES(?, ?) ON CONFLICT(user_id) DO
UPDATE SET username=COALESCE(excluded.username, users.username),
updated_at=datetime('now')`.  On conflict, `COALESCE` keeps the old
`username` exactly when the new one is NULL (`none`). -/
def ensure_user_tx (s : DBState) (user_id : Nat) (username : Option String) (t : Nat) : DBState :=
  if (findUser s user_id).isSome then
    { s with users := s.users.map (fun u =>
        if u.user_id == user_id then
          { u with username := coalesceName username u.username, updated_at := t }
        else u) }
  else
    { s with users := s.users ++ [⟨user_id, username, 0, t, t⟩] }

/-- `Database.ensure_user`: the same upsert in its own transaction. -/
def ensure_user (s : DBState) (user_id : Nat) (username : Option String) (t : Nat) : DBState :=
  ensure_user_tx s user_id username t

/-- `Database.get_balance` / `Database._get_balance_tx`:
`SELECT balance FROM users WHERE user_id=?`, returning 0 when no row. -/
def get_balance (s : DBState) (user_id : Nat) : Int :=
  match findUser s user_id with
  | some u => u.balance
  | none => 0

/-- `UPDATE users SET balance = balance + ?, updated_at=datetime('now')
WHERE user_id=?` (a delta of `-amount` embeds `balance - ?`). -/
def updateBalance (s : DBState) (user_id : Nat) (delta : Int) (t : Nat) : DBState :=
  { s with users := s.users.map (fun u =>
      if u.user_id == user_id then
        { u with balance := u.balance + delta, updated_at := t }
      else u) }

/-- `Database.payment_exists`: `SELECT 1 FROM payments WHERE charge_id=?`. -/
def payment_exists (s : DBState) (charge_id : String) : Bool :=
  s.payments.any (fun p => p.charge_id == charge_id)

/-- `Database._insert_transaction`: one `INSERT INTO transactions(...)`. -/
def insert_transaction (s : DBState) (user_id : Nat) (tx_type : TxType) (amount : Int)
    (related_user_id : Option Nat) (charge_id : Option String) (description : Option String)
    (balance_after : Option Int) (t : Nat) : DBState :=
  { s with
    transactions := s.transactions ++
      [⟨s.next_txn_id, user_id, tx_type, amount, related_user_id, charge_id, description,
        balance_after, t⟩],
    next_txn_id := s.next_txn_id + 1 }

/-- The `INSERT INTO payments(user_id, amount, currency, charge_id, refunded)
VALUES(?, ?, 'XTR', ?, 0)` of `add_purchase`. -/
def insertPayment (s : DBState) (user_id : Nat) (amount : Int) (charge_id : String)
    (t : Nat) : DBState :=
  { s with
    payments := s.payments ++ [⟨s.next_payment_id, user_id, amount, "XTR", charge_id, false, t⟩],
    next_payment_id := s.next_payment_id + 1 }

/-- The committed write sequence of `add_purchase` on the fresh-charge path:
payment insert, balance credit, one `purchase` ledger entry carrying the
re-read balance. -/
def purchaseCommit (s : DBState) (user_id : Nat) (username : Option String) (amount : Int)
    (charge_id : String) (t : Nat) : DBState :=
  let s3 := updateBalance
    (insertPayment (ensure_user_tx s user_id username t) user_id amount charge_id t)
    user_id amount t
  insert_transaction s3 user_id .purchase amount none (some charge_id)
    (some "Покупка Stars через Telegram") (some (get_balance s3 user_id)) t

/-- `Database.add_purchase`: ensure the user, roll back returning `False` if
any `payments` row already has this `charge_id` (leaving the committed state
exactly as before the call), otherwise commit the purchase writes. -/
def add_purchase (s : DBState) (user_id : Nat) (username : Option String) (amount : Int)
    (charge_id : String) (t : Nat) : Bool × DBState :=
  if (ensure_user_tx s user_id username t).payments.any (fun p => p.charge_id == charge_id) then
    (false, s)
  else
    (true, purchaseCommit s user_id username amount charge_id t)

/-- Both `_ensure_user_tx` calls at the head of `transfer`'s transaction. -/
def transferEnsured (s : DBState) (from_user to_user : Nat)
    (from_username to_username : Option String) (t : Nat) : DBState :=
  ensure_user_tx (ensure_user_tx s from_user from_username t) to_user to_username t

/-- The two balance `UPDATE`s of `transfer`: debit sender, credit receiver. -/
def transferUpdated (s : DBState) (from_user to_user : Nat) (amount : Int)
    (from_username to_username : Option String) (t : Nat) : DBState :=
  updateBalance
    (updateBalance (transferEnsured s from_user to_user from_username to_username t)
      from_user (-amount) t)
    to_user amount t

/-- The `INSERT INTO transfers(from_user_id, to_user_id, amount)` of
`transfer`. -/
def insertTransfer (s : DBState) (from_user to_user : Nat) (amount : Int) (t : Nat) : DBState :=
  { s with
    transfers := s.transfers ++ [⟨s.next_transfer_id, from_user, to_user, amount, t⟩],
    next_transfer_id := s.next_transfer_id + 1 }

/-- The committed write sequence of `transfer` after the funds check: debit,
credit, transfer row, then the `gift_out` and `gift_in` ledger entries, each
carrying its party's balance re-read after both updates. -/
def transferCommit (s : DBState) (from_user to_user : Nat) (amount : Int)
    (from_username to_username : Option String) (t : Nat) : DBState :=
  let s5 := insertTransfer (transferUpdated s from_user to_user amount from_username to_username t)
    from_user to_user amount t
  let s6 := insert_transaction s5 from_user .gift_out amount (some to_user) none
    (some ("Подарок " ++ toString amount ++ "⭐ пользователю " ++ toString to_user))
    (some (get_balance s5 from_user)) t
  insert_transaction s6 to_user .gift_in amount (some from_user) none
    (some ("Получен подарок " ++ toString amount ++ "⭐ от пользователя " ++ toString from_user))
    (some (get_balance s5 to_user)) t

/-- `Database.transfer`: reject `amount ≤ 0` (`ValueError("amount must be
positive")`, raised before the transaction opens); ensure both users; roll
back with `ValueError("insufficient_funds")` when the sender balance is
below `amount` (the rollback also discards the ensures, leaving the
committed state exactly as before the call); otherwise commit the transfer
writes and return the new `transfers` row id. -/
def transfer (s : DBState) (from_user to_user : Nat) (amount : Int)
    (from_username to_username : Option String) (t : Nat) : (Except String Nat) × DBState :=
  if amount ≤ 0 then (.error "amount must be positive", s)
  else if get_balance (transferEnsured s from_user to_user from_username to_username t)
      from_user < amount then
    (.error "insufficient_funds", s)
  else
    (.ok (transferUpdated s from_user to_user amount from_username to_username t).next_transfer_id,
      transferCommit s from_user to_user amount from_username to_username t)

/-- The `UPDATE payments SET refunded=1 WHERE id=?` of `mark_refund`. -/
def flipRefund (s : DBState) (pid : Nat) : DBState :=
  { s with payments := s.payments.map (fun p =>
      if p.id == pid then { p with refunded := true } else p) }

/-- The committed write sequence of `mark_refund` after all checks pass:
flag flip, balance debit, one `refund` ledger entry carrying the re-read
balance. -/
def refundCommit (s : DBState) (user_id : Nat) (charge_id : String) (amount : Int)
    (pid : Nat) (t : Nat) : DBState :=
  let s2 := updateBalance (flipRefund s pid) user_id (-amount) t
  insert_transaction s2 user_id .refund amount none (some charge_id)
    (some "Возврат Stars пользователю") (some (get_balance s2 user_id)) t

/-- `Database.mark_refund`: locate the payment by `(charge_id, user_id)`;
return `False` (rolling back, so the state is unchanged) when absent,
already refunded, the amount differs, or the current balance is below
`amount`; otherwise commit the refund writes. -/
def mark_refund (s : DBState) (user_id : Nat) (charge_id : String) (amount : Int) (t : Nat) :
    Bool × DBState :=
  match s.payments.find? (fun p => p.charge_id == charge_id && p.user_id == user_id) with
  | none => (false, s)
  | some row =>
    if row.refunded then (false, s)
    else if row.amount != amount then (false, s)
    else if get_balance s user_id < amount then (false, s)
    else (true, refundCommit s user_id charge_id amount row.id t)

/-- The `ORDER BY created_at DESC, id DESC` order of `get_transactions`:
`a` is listed no later than `b`. -/
def txnLe (a b : Txn) : Prop :=
  b.created_at < a.created_at ∨ (b.created_at = a.created_at ∧ b.id ≤ a.id)

instance : DecidableRel txnLe := fun a b => by
  unfold txnLe; infer_instance

/-- `Database.get_transactions`: `SELECT ... FROM transactions WHERE user_id=?
ORDER BY created_at DESC, id DESC LIMIT ? OFFSET ?`. -/
def get_transactions (s : DBState) (user_id : Nat) (limit offset : Nat) : List Txn :=
  ((List.insertionSort txnLe (s.transactions.filter (fun e => e.user_id == user_id))).drop
    offset).take limit

/-- `Database.count_transactions`: `SELECT COUNT(*) FROM transactions WHERE
user_id=?`. -/
def count_transactions (s : DBState) (user_id : Nat) : Nat :=
  (s.transactions.filter (fun e => e.user_id == user_id)).length

/-- `a` precedes `b` in a `balance DESC` listing when `b.balance ≤ a.balance`. -/
def balanceGe (a b : User) : Prop := b.balance ≤ a.balance

instance : DecidableRel balanceGe := fun a b => by
  unfold balanceGe; infer_instance

/-- A list of user rows is weakly sorted by `balance DESC`. -/
def balanceDescSorted (l : List User) : Prop :=
  l.Pairwise balanceGe

/-- `Database.top_balances`: `SELECT user_id, username, balance FROM users
ORDER BY balance DESC LIMIT ?`.  The query names no tiebreak for equal
balances, so SQL fixes the output only up to the order of ties: `out` is a
possible result exactly when it is the `limit`-prefix of some reordering of
`users` that is weakly sorted by `balance DESC`.  (The Python rows project
three columns of the row; the embedding keeps whole rows.) -/
def top_balances_post (s : DBState) (limit : Nat) (out : List User) : Prop :=
  ∃ perm : List User, perm.Perm s.users ∧ balanceDescSorted perm ∧ out = perm.take limit

/-- Fold computing a row of maximal `created_at` (`ORDER BY created_at DESC
LIMIT 1`); among equal timestamps SQL does not say which row wins, and every
property proved below is independent of that choice. -/
def laterPayment (acc : Option Payment) (p : Payment) : Option Payment :=
  match acc with
  | none => some p
  | some q => if q.created_at < p.created_at then some p else some q

/-- `Database.get_payment_for_amount`: `SELECT ... FROM payments WHERE
user_id=? AND amount=? AND refunded=0 ORDER BY created_at DESC LIMIT 1`. -/
def get_payment_for_amount (s : DBState) (user_id : Nat) (amount : Int) : Option Payment :=
  (s.payments.filter
    (fun p => p.user_id == user_id && p.amount == amount && p.refunded == false)).foldl
    laterPayment none

/-- One committed mutating call of the `Database` API.  `add_purchase` is
invoked by the `successful_payment` handler with a Telegram Stars
`total_amount`, always positive, matching `recordPurchase(…, amount>0, …)`
of the operation surface; the other operations guard their own inputs. -/
inductive Step : DBState → DBState → Prop
  | ensure (s : DBState) (uid : Nat) (un : Option String) (t : Nat) :
      Step s (ensure_user s uid un t)
  | purchase (s : DBState) (uid : Nat) (un : Option String) (amount : Int) (cid : String)
      (t : Nat) (h : 0 < amount) : Step s (add_purchase s uid un amount cid t).2
  | gift (s : DBState) (fu tu : Nat) (amount : Int) (fname tname : Option String) (t : Nat) :
      Step s (transfer s fu tu amount fname tname t).2
  | refund (s : DBState) (uid : Nat) (cid : String) (amount : Int) (t : Nat) :
      Step s (mark_refund s uid cid amount t).2

/-- States reachable from a freshly initialised database by committed calls. -/
inductive Reach : DBState → Prop
  | init : Reach initState
  | step {s s' : DBState} : Reach s → Step s s' → Reach s'

/-- Zero or more committed calls. -/
inductive Steps : DBState → DBState → Prop
  | refl (s : DBState) : Steps s s
  | tail {s s' s'' : DBState} : Steps s s' → Step s' s'' → Steps s s''

/-- The signed contribution of one ledger entry to its account's balance:
credits (`purchase`, `gift_in`) count `+amount`, debits (`gift_out`,
`refund`) count `-amount`. -/
def signedAmount (e : Txn) : Int :=
  match e.type with
  | .purchase => e.amount
  | .gift_in => e.amount
  | .gift_out => -e.amount
  | .refund => -e.amount

/-- Sum of signed ledger amounts of one account (the replay of its history). -/
def signedSum (s : DBState) (uid : Nat) : Int :=
  ((s.transactions.filter (fun e => e.user_id == uid)).map signedAmount).sum

/-- Strictly decreasing `(created_at, id)` key order (the strict form of
`txnLe`, total on rows with distinct ids). -/
def txnLt (a b : Txn) : Prop :=
  b.created_at < a.created_at ∨ (b.created_at = a.created_at ∧ b.id < a.id)

/-- All ledger rows of an account in the order served by `get_transactions`. -/
def all_transactions (s : DBState) (uid : Nat) : List Txn :=
  List.insertionSort txnLe (s.transactions.filter (fun e => e.user_id == uid))

/-- Number of `payments` rows holding a given `charge_id`. -/
def chargeCount (s : DBState) (cid : String) : Nat :=
  (s.payments.filter (fun p => p.charge_id == cid)).length

/-- The order the spec ascribes to `top_balances`: balance descending with
ties broken by `user_id` ascending. -/
def topOrder (a b : User) : Prop :=
  b.balance < a.balance ∨ (a.balance = b.balance ∧ a.user_id < b.user_id)

/-- Structural invariants of every reachable database: every account balance
is non-negative and every recorded payment amount is positive. -/
def GoodState (s : DBState) : Prop :=
  (∀ v, 0 ≤ get_balance s v) ∧ (∀ p ∈ s.payments, 0 < p.amount)

instance : IsTotal Txn txnLe := by
  constructor
  intro a b
  unfold txnLe
  omega

instance : IsTrans Txn txnLe := by
  constructor
  intro a b c hab hbc
  unfold txnLe at hab hbc ⊢
  omega

instance : DecidableRel topOrder := fun a b => by
  unfold topOrder; infer_instance

/-- `Database.get_balance` as the caller observes it: the method opens a
connection, runs only a `SELECT`, and closes — it commits no write, so the
database after the call is the database before it. -/
def get_balance_call (s : DBState) (user_id : Nat) : Int × DBState :=
  (get_balance s user_id, s)

/-- `Database.get_payment_for_amount` as the caller observes it: `SELECT`
only, no write committed. -/
def get_payment_for_amount_call (s : DBState) (user_id : Nat) (amount : Int) :
    (Option Payment) × DBState :=
  (get_payment_for_amount s user_id amount, s)

/-! ### Lemmas about the primitive state operations -/

theorem find?_map_ite (l : List User) (uid v : Nat) (g : User → User)
    (hg : ∀ u, (g u).user_id = u.user_id) :
    (l.map (fun u => if u.user_id == uid then g u else u)).find? (fun u => u.user_id == v) =
      if v = uid then (l.find? (fun u => u.user_id == uid)).map g
      else l.find? (fun u => u.user_id == v) := by
  induction l with
  | nil => by_cases h : v = uid <;> simp [h]
  | cons a l ih =>
    simp only [List.map_cons, List.find?_cons]
    by_cases hau : a.user_id = uid
    · by_cases hvu : v = uid
      · subst hvu
        have h1 : (a.user_id == v) = true := by simp [hau]
        have h2 : ((g a).user_id == v) = true := by simp [hg, hau]
        simp [h1, h2, hau]
      · have h1 : (a.user_id == v) = false := by
          simp [hau]; exact fun h => hvu h.symm
        have h2 : ((g a).user_id == v) = false := by
          simp [hg, hau]; exact fun h => hvu h.symm
        have h3 : (a.user_id == uid) = true := by simp [hau]
        simp only [h3, if_true, h2, h1]
        rw [ih]
        simp [hvu]
    · have h3 : (a.user_id == uid) = false := by simp [hau]
      simp only [h3, if_false]
      by_cases hav : a.user_id = v
      · have hvu : ¬ v = uid := fun h => hau (h ▸ hav)
        have h1 : (a.user_id == v) = true := by simp [hav]
        simp [h1, hvu]
      · have h1 : (a.user_id == v) = false := by simp [hav]
        simp only [h1]
        rw [ih]
        by_cases hvu : v = uid
        · subst hvu
          have h4 : (a.user_id == v) = false := by simp [hau]
          simp [h4]
        · simp [h1, hvu]

theorem findUser_updateBalance_self (s : DBState) (uid : Nat) (d : Int) (t : Nat) :
    findUser (updateBalance s uid d t) uid =
      (findUser s uid).map (fun u => { u with balance := u.balance + d, updated_at := t }) := by
  show (s.users.map (fun u => if u.user_id == uid then
      { u with balance := u.balance + d, updated_at := t } else u)).find?
      (fun u => u.user_id == uid) = _
  rw [find?_map_ite s.users uid uid
      (fun u => { u with balance := u.balance + d, updated_at := t }) (fun u => rfl)]
  simp [findUser]

theorem findUser_updateBalance_other (s : DBState) (uid v : Nat) (d : Int) (t : Nat)
    (h : v ≠ uid) : findUser (updateBalance s uid d t) v = findUser s v := by
  show (s.users.map (fun u => if u.user_id == uid then
      { u with balance := u.balance + d, updated_at := t } else u)).find?
      (fun u => u.user_id == v) = _
  rw [find?_map_ite s.users uid v
      (fun u => { u with balance := u.balance + d, updated_at := t }) (fun u => rfl)]
  simp [findUser, h]

theorem get_balance_updateBalance_self (s : DBState) (uid : Nat) (d : Int) (t : Nat)
    (h : (findUser s uid).isSome) :
    get_balance (updateBalance s uid d t) uid = get_balance s uid + d := by
  unfold get_balance
  rw [findUser_updateBalance_self]
  cases hfu : findUser s uid with
  | none => rw [hfu] at h; simp at h
  | some u => simp

theorem get_balance_updateBalance_other (s : DBState) (uid v : Nat) (d : Int) (t : Nat)
    (h : v ≠ uid) : get_balance (updateBalance s uid d t) v = get_balance s v := by
  unfold get_balance
  rw [findUser_updateBalance_other s uid v d t h]

theorem findUser_ensure_self (s : DBState) (uid : Nat) (un : Option String) (t : Nat) :
    findUser (ensure_user_tx s uid un t) uid =
      match findUser s uid with
      | some u => some { u with username := coalesceName un u.username, updated_at := t }
      | none => some ⟨uid, un, 0, t, t⟩ := by
  cases hfu : findUser s uid with
  | some u =>
    have hsome : (findUser s uid).isSome := by rw [hfu]; rfl
    have he : ensure_user_tx s uid un t = { s with users := s.users.map (fun u =>
        if u.user_id == uid then
          { u with username := coalesceName un u.username, updated_at := t }
        else u) } := by
      unfold ensure_user_tx; rw [if_pos hsome]
    rw [he]
    unfold findUser
    rw [find?_map_ite s.users uid uid
        (fun u => { u with username := coalesceName un u.username, updated_at := t })
        (fun u => rfl)]
    unfold findUser at hfu
    simp [hfu]
  | none =>
    have hnone : ¬ (findUser s uid).isSome := by rw [hfu]; simp
    have he : ensure_user_tx s uid un t =
        { s with users := s.users ++ [⟨uid, un, 0, t, t⟩] } := by
      unfold ensure_user_tx; rw [if_neg hnone]
    rw [he]
    unfold findUser
    rw [List.find?_append]
    unfold findUser at hfu
    simp [hfu]

theorem findUser_ensure_other (s : DBState) (uid v : Nat) (un : Option String) (t : Nat)
    (h : v ≠ uid) : findUser (ensure_user_tx s uid un t) v = findUser s v := by
  cases hfu : findUser s uid with
  | some u =>
    have hsome : (findUser s uid).isSome := by rw [hfu]; rfl
    have he : ensure_user_tx s uid un t = { s with users := s.users.map (fun u =>
        if u.user_id == uid then
          { u with username := coalesceName un u.username, updated_at := t }
        else u) } := by
      unfold ensure_user_tx; rw [if_pos hsome]
    rw [he]
    unfold findUser
    rw [find?_map_ite s.users uid v
        (fun u => { u with username := coalesceName un u.username, updated_at := t })
        (fun u => rfl)]
    simp [findUser, h]
  | none =>
    have hnone : ¬ (findUser s uid).isSome := by rw [hfu]; simp
    have he : ensure_user_tx s uid un t =
        { s with users := s.users ++ [⟨uid, un, 0, t, t⟩] } := by
      unfold ensure_user_tx; rw [if_neg hnone]
    rw [he]
    unfold findUser
    rw [List.find?_append]
    have h1 : ((⟨uid, un, 0, t, t⟩ : User).user_id == v) = false := by
      simp; exact fun hh => h hh.symm
    simp [findUser, h1]

theorem get_balance_ensure (s : DBState) (uid : Nat) (un : Option String) (t : Nat) (v : Nat) :
    get_balance (ensure_user_tx s uid un t) v = get_balance s v := by
  by_cases hv : v = uid
  · subst hv
    unfold get_balance
    rw [findUser_ensure_self]
    cases findUser s v <;> simp
  · unfold get_balance
    rw [findUser_ensure_other s uid v un t hv]

theorem findUser_ensure_isSome (s : DBState) (uid : Nat) (un : Option String) (t : Nat) :
    (findUser (ensure_user_tx s uid un t) uid).isSome := by
  rw [findUser_ensure_self]
  cases findUser s uid <;> simp

theorem ensure_payments (s : DBState) (uid : Nat) (un : Option String) (t : Nat) :
    (ensure_user_tx s uid un t).payments = s.payments := by
  unfold ensure_user_tx; split <;> rfl

theorem ensure_transfers (s : DBState) (uid : Nat) (un : Option String) (t : Nat) :
    (ensure_user_tx s uid un t).transfers = s.transfers := by
  unfold ensure_user_tx; split <;> rfl

theorem ensure_transactions (s : DBState) (uid : Nat) (un : Option String) (t : Nat) :
    (ensure_user_tx s uid un t).transactions = s.transactions := by
  unfold ensure_user_tx; split <;> rfl

theorem ensure_next_payment_id (s : DBState) (uid : Nat) (un : Option String) (t : Nat) :
    (ensure_user_tx s uid un t).next_payment_id = s.next_payment_id := by
  unfold ensure_user_tx; split <;> rfl

theorem ensure_next_transfer_id (s : DBState) (uid : Nat) (un : Option String) (t : Nat) :
    (ensure_user_tx s uid un t).next_transfer_id = s.next_transfer_id := by
  unfold ensure_user_tx; split <;> rfl

theorem ensure_next_txn_id (s : DBState) (uid : Nat) (un : Option String) (t : Nat) :
    (ensure_user_tx s uid un t).next_txn_id = s.next_txn_id := by
  unfold ensure_user_tx; split <;> rfl

/-- `get_balance` reads only `users`. -/
theorem get_balance_congr {s s' : DBState} (h : s'.users = s.users) (v : Nat) :
    get_balance s' v = get_balance s v := by
  unfold get_balance findUser; rw [h]

/-- `signedSum` reads only `transactions`. -/
theorem signedSum_congr {s s' : DBState} (h : s'.transactions = s.transactions) (v : Nat) :
    signedSum s' v = signedSum s v := by
  unfold signedSum; rw [h]

/-- In a table whose `user_id`s are distinct, `find?` returns the member. -/
theorem find?_eq_of_mem_of_nodup (l : List User) (uid : Nat) (u : User)
    (hmem : u ∈ l) (hid : u.user_id = uid)
    (hnd : (l.map (fun x => x.user_id)).Nodup) :
    l.find? (fun x => x.user_id == uid) = some u := by
  induction l with
  | nil => cases hmem
  | cons a l ih =>
    rcases List.mem_cons.mp hmem with h | h
    · subst h
      simp [List.find?_cons, hid]
    · by_cases hau : a.user_id = uid
      · exfalso
        have : u.user_id ∈ l.map (fun x => x.user_id) := List.mem_map_of_mem _ h
        rw [List.map_cons, List.nodup_cons] at hnd
        exact hnd.1 (by rw [hau, ← hid] at *; exact this)
      · have h1 : (a.user_id == uid) = false := by simp [hau]
        simp only [List.find?_cons, h1]
        exact ih h (by rw [List.map_cons, List.nodup_cons] at hnd; exact hnd.2)

/-- Appending one ledger row adds its signed amount to its own account's
replay sum and leaves every other account's sum unchanged. -/
theorem signedSum_append_entry {s s' : DBState} {e : Txn}
    (h : s'.transactions = s.transactions ++ [e]) (v : Nat) :
    signedSum s' v = signedSum s v + (if e.user_id = v then signedAmount e else 0) := by
  unfold signedSum
  rw [h, List.filter_append, List.map_append, List.sum_append]
  by_cases hv : e.user_id = v <;> simp [hv]

theorem insert_transaction_users (s : DBState) (u : Nat) (ty : TxType) (am : Int)
    (r : Option Nat) (c dsc : Option String) (ba : Option Int) (t : Nat) :
    (insert_transaction s u ty am r c dsc ba t).users = s.users := rfl

theorem insert_transaction_payments (s : DBState) (u : Nat) (ty : TxType) (am : Int)
    (r : Option Nat) (c dsc : Option String) (ba : Option Int) (t : Nat) :
    (insert_transaction s u ty am r c dsc ba t).payments = s.payments := rfl

theorem insert_transaction_transfers (s : DBState) (u : Nat) (ty : TxType) (am : Int)
    (r : Option Nat) (c dsc : Option String) (ba : Option Int) (t : Nat) :
    (insert_transaction s u ty am r c dsc ba t).transfers = s.transfers := rfl

theorem updateBalance_payments (s : DBState) (uid : Nat) (d : Int) (t : Nat) :
    (updateBalance s uid d t).payments = s.payments := rfl

theorem updateBalance_transfers (s : DBState) (uid : Nat) (d : Int) (t : Nat) :
    (updateBalance s uid d t).transfers = s.transfers := rfl

theorem updateBalance_transactions (s : DBState) (uid : Nat) (d : Int) (t : Nat) :
    (updateBalance s uid d t).transactions = s.transactions := rfl

theorem updateBalance_next_txn_id (s : DBState) (uid : Nat) (d : Int) (t : Nat) :
    (updateBalance s uid d t).next_txn_id = s.next_txn_id := rfl

theorem insert_transaction_transactions (s : DBState) (u : Nat) (ty : TxType) (am : Int)
    (r : Option Nat) (c dsc : Option String) (ba : Option Int) (t : Nat) :
    (insert_transaction s u ty am r c dsc ba t).transactions =
      s.transactions ++ [⟨s.next_txn_id, u, ty, am, r, c, dsc, ba, t⟩] := rfl

theorem insert_transaction_next_txn_id (s : DBState) (u : Nat) (ty : TxType) (am : Int)
    (r : Option Nat) (c dsc : Option String) (ba : Option Int) (t : Nat) :
    (insert_transaction s u ty am r c dsc ba t).next_txn_id = s.next_txn_id + 1 := rfl

theorem insertTransfer_transactions (s : DBState) (f g : Nat) (am : Int) (t : Nat) :
    (insertTransfer s f g am t).transactions = s.transactions := rfl

theorem insertTransfer_next_txn_id (s : DBState) (f g : Nat) (am : Int) (t : Nat) :
    (insertTransfer s f g am t).next_txn_id = s.next_txn_id := rfl

theorem get_balance_insert_transaction (s : DBState) (u : Nat) (ty : TxType) (am : Int)
    (r : Option Nat) (c dsc : Option String) (ba : Option Int) (t : Nat) (v : Nat) :
    get_balance (insert_transaction s u ty am r c dsc ba t) v = get_balance s v := rfl

theorem get_balance_insertPayment (s : DBState) (uid : Nat) (am : Int) (cid : String)
    (t : Nat) (v : Nat) : get_balance (insertPayment s uid am cid t) v = get_balance s v := rfl

theorem get_balance_insertTransfer (s : DBState) (f g : Nat) (am : Int) (t : Nat) (v : Nat) :
    get_balance (insertTransfer s f g am t) v = get_balance s v := rfl

theorem get_balance_flipRefund (s : DBState) (pid : Nat) (v : Nat) :
    get_balance (flipRefund s pid) v = get_balance s v := rfl

theorem findUser_insertPayment (s : DBState) (uid : Nat) (am : Int) (cid : String)
    (t : Nat) (v : Nat) : findUser (insertPayment s uid am cid t) v = findUser s v := rfl

theorem findUser_flipRefund (s : DBState) (pid : Nat) (v : Nat) :
    findUser (flipRefund s pid) v = findUser s v := rfl

theorem findUser_updateBalance_isSome (s : DBState) (uid v : Nat) (d : Int) (t : Nat)
    (h : (findUser s v).isSome) : (findUser (updateBalance s uid d t) v).isSome := by
  by_cases hv : v = uid
  · subst hv
    rw [findUser_updateBalance_self]
    cases hfu : findUser s v with
    | none => rw [hfu] at h; simp at h
    | some u => simp
  · rw [findUser_updateBalance_other s uid v d t hv]; exact h

theorem findUser_ensure_isSome_mono (s : DBState) (uid v : Nat) (un : Option String) (t : Nat)
    (h : (findUser s v).isSome) : (findUser (ensure_user_tx s uid un t) v).isSome := by
  by_cases hv : v = uid
  · subst hv; exact findUser_ensure_isSome s v un t
  · rw [findUser_ensure_other s uid v un t hv]; exact h

/-! ### The duplicate and fresh paths of `add_purchase` -/

theorem add_purchase_dup (s : DBState) (uid : Nat) (un : Option String) (amount : Int)
    (cid : String) (t : Nat) (h : payment_exists s cid = true) :
    add_purchase s uid un amount cid t = (false, s) := by
  unfold add_purchase
  have h1 : (ensure_user_tx s uid un t).payments.any (fun p => p.charge_id == cid) = true := by
    rw [ensure_payments]; exact h
  rw [h1]
  simp

theorem add_purchase_fresh (s : DBState) (uid : Nat) (un : Option String) (amount : Int)
    (cid : String) (t : Nat) (h : payment_exists s cid = false) :
    add_purchase s uid un amount cid t = (true, purchaseCommit s uid un amount cid t) := by
  unfold add_purchase
  have h1 : (ensure_user_tx s uid un t).payments.any (fun p => p.charge_id == cid) = false := by
    rw [ensure_payments]; exact h
  rw [h1]
  simp

theorem purchaseMid_balance (s : DBState) (uid : Nat) (un : Option String) (amount : Int)
    (cid : String) (t : Nat) (v : Nat) :
    get_balance
      (updateBalance (insertPayment (ensure_user_tx s uid un t) uid amount cid t) uid amount t)
      v = get_balance s v + (if uid = v then amount else 0) := by
  by_cases hv : uid = v
  · subst hv
    rw [get_balance_updateBalance_self]
    · rw [get_balance_insertPayment, get_balance_ensure]
      simp
    · rw [findUser_insertPayment]
      exact findUser_ensure_isSome s uid un t
  · rw [get_balance_updateBalance_other _ _ _ _ _ (fun hh => hv hh.symm)]
    rw [get_balance_insertPayment, get_balance_ensure]
    simp [hv]

theorem purchaseCommit_balance (s : DBState) (uid : Nat) (un : Option String) (amount : Int)
    (cid : String) (t : Nat) (v : Nat) :
    get_balance (purchaseCommit s uid un amount cid t) v =
      get_balance s v + (if uid = v then amount else 0) := by
  simp only [purchaseCommit]
  rw [get_balance_insert_transaction]
  exact purchaseMid_balance s uid un amount cid t v

theorem purchaseCommit_payments (s : DBState) (uid : Nat) (un : Option String) (amount : Int)
    (cid : String) (t : Nat) :
    (purchaseCommit s uid un amount cid t).payments =
      s.payments ++ [⟨s.next_payment_id, uid, amount, "XTR", cid, false, t⟩] := by
  show (insertPayment (ensure_user_tx s uid un t) uid amount cid t).payments = _
  unfold insertPayment
  rw [show ({ ensure_user_tx s uid un t with
      payments := (ensure_user_tx s uid un t).payments ++
        [⟨(ensure_user_tx s uid un t).next_payment_id, uid, amount, "XTR", cid, false, t⟩],
      next_payment_id := (ensure_user_tx s uid un t).next_payment_id + 1 } : DBState).payments =
    (ensure_user_tx s uid un t).payments ++
      [⟨(ensure_user_tx s uid un t).next_payment_id, uid, amount, "XTR", cid, false, t⟩] from rfl]
  rw [ensure_payments, ensure_next_payment_id]

theorem purchaseCommit_transactions (s : DBState) (uid : Nat) (un : Option String) (amount : Int)
    (cid : String) (t : Nat) :
    (purchaseCommit s uid un amount cid t).transactions =
      s.transactions ++ [⟨s.next_txn_id, uid, .purchase, amount, none, some cid,
        some "Покупка Stars через Telegram", some (get_balance s uid + amount), t⟩] := by
  simp only [purchaseCommit]
  rw [insert_transaction_transactions]
  have hmid := purchaseMid_balance s uid un amount cid t uid
  rw [if_pos rfl] at hmid
  rw [hmid]
  have htx : (updateBalance (insertPayment (ensure_user_tx s uid un t) uid amount cid t)
      uid amount t).transactions = s.transactions := by
    rw [updateBalance_transactions]
    show (ensure_user_tx s uid un t).transactions = _
    exact ensure_transactions s uid un t
  have hid : (updateBalance (insertPayment (ensure_user_tx s uid un t) uid amount cid t)
      uid amount t).next_txn_id = s.next_txn_id := by
    rw [updateBalance_next_txn_id]
    show (ensure_user_tx s uid un t).next_txn_id = _
    exact ensure_next_txn_id s uid un t
  rw [htx, hid]

theorem purchaseCommit_transfers (s : DBState) (uid : Nat) (un : Option String) (amount : Int)
    (cid : String) (t : Nat) :
    (purchaseCommit s uid un amount cid t).transfers = s.transfers := by
  show (ensure_user_tx s uid un t).transfers = _
  exact ensure_transfers s uid un t

/-! ### The failure and success paths of `transfer` -/

theorem get_balance_transferEnsured (s : DBState) (f g : Nat) (fn tn : Option String)
    (t : Nat) (v : Nat) :
    get_balance (transferEnsured s f g fn tn t) v = get_balance s v := by
  unfold transferEnsured
  rw [get_balance_ensure, get_balance_ensure]

theorem transferEnsured_payments (s : DBState) (f g : Nat) (fn tn : Option String) (t : Nat) :
    (transferEnsured s f g fn tn t).payments = s.payments := by
  unfold transferEnsured
  rw [ensure_payments, ensure_payments]

theorem transferEnsured_transfers (s : DBState) (f g : Nat) (fn tn : Option String) (t : Nat) :
    (transferEnsured s f g fn tn t).transfers = s.transfers := by
  unfold transferEnsured
  rw [ensure_transfers, ensure_transfers]

theorem transferEnsured_transactions (s : DBState) (f g : Nat) (fn tn : Option String)
    (t : Nat) :
    (transferEnsured s f g fn tn t).transactions = s.transactions := by
  unfold transferEnsured
  rw [ensure_transactions, ensure_transactions]

theorem transferEnsured_next_transfer_id (s : DBState) (f g : Nat) (fn tn : Option String)
    (t : Nat) :
    (transferEnsured s f g fn tn t).next_transfer_id = s.next_transfer_id := by
  unfold transferEnsured
  rw [ensure_next_transfer_id, ensure_next_transfer_id]

theorem transferEnsured_next_txn_id (s : DBState) (f g : Nat) (fn tn : Option String)
    (t : Nat) :
    (transferEnsured s f g fn tn t).next_txn_id = s.next_txn_id := by
  unfold transferEnsured
  rw [ensure_next_txn_id, ensure_next_txn_id]

theorem transferEnsured_isSome_from (s : DBState) (f g : Nat) (fn tn : Option String)
    (t : Nat) : (findUser (transferEnsured s f g fn tn t) f).isSome := by
  unfold transferEnsured
  exact findUser_ensure_isSome_mono _ g f tn t (findUser_ensure_isSome s f fn t)

theorem transferEnsured_isSome_to (s : DBState) (f g : Nat) (fn tn : Option String)
    (t : Nat) : (findUser (transferEnsured s f g fn tn t) g).isSome := by
  unfold transferEnsured
  exact findUser_ensure_isSome _ g tn t

theorem transferUpdated_balance (s : DBState) (f g : Nat) (amount : Int)
    (fn tn : Option String) (t : Nat) (v : Nat) :
    get_balance (transferUpdated s f g amount fn tn t) v =
      get_balance s v + (if f = v then -amount else 0) + (if g = v then amount else 0) := by
  unfold transferUpdated
  by_cases hg : g = v
  · subst hg
    rw [get_balance_updateBalance_self _ _ _ _
        (findUser_updateBalance_isSome _ f g (-amount) t (transferEnsured_isSome_to s f g fn tn t))]
    by_cases hf : f = g
    · subst hf
      rw [get_balance_updateBalance_self _ _ _ _ (transferEnsured_isSome_from s f f fn tn t)]
      rw [get_balance_transferEnsured]
      simp
    · rw [get_balance_updateBalance_other _ _ _ _ _ (fun hh => hf hh.symm)]
      rw [get_balance_transferEnsured]
      simp [hf]
  · rw [get_balance_updateBalance_other _ _ _ _ _ (fun hh => hg hh.symm)]
    by_cases hf : f = v
    · subst hf
      rw [get_balance_updateBalance_self _ _ _ _ (transferEnsured_isSome_from s f g fn tn t)]
      rw [get_balance_transferEnsured]
      simp [hg]
    · rw [get_balance_updateBalance_other _ _ _ _ _ (fun hh => hf hh.symm)]
      rw [get_balance_transferEnsured]
      simp [hf, hg]

theorem transferUpdated_payments (s : DBState) (f g : Nat) (amount : Int)
    (fn tn : Option String) (t : Nat) :
    (transferUpdated s f g amount fn tn t).payments = s.payments := by
  show (transferEnsured s f g fn tn t).payments = _
  exact transferEnsured_payments s f g fn tn t

theorem transferUpdated_transfers (s : DBState) (f g : Nat) (amount : Int)
    (fn tn : Option String) (t : Nat) :
    (transferUpdated s f g amount fn tn t).transfers = s.transfers := by
  show (transferEnsured s f g fn tn t).transfers = _
  exact transferEnsured_transfers s f g fn tn t

theorem transferUpdated_transactions (s : DBState) (f g : Nat) (amount : Int)
    (fn tn : Option String) (t : Nat) :
    (transferUpdated s f g amount fn tn t).transactions = s.transactions := by
  show (transferEnsured s f g fn tn t).transactions = _
  exact transferEnsured_transactions s f g fn tn t

theorem transferUpdated_next_transfer_id (s : DBState) (f g : Nat) (amount : Int)
    (fn tn : Option String) (t : Nat) :
    (transferUpdated s f g amount fn tn t).next_transfer_id = s.next_transfer_id := by
  show (transferEnsured s f g fn tn t).next_transfer_id = _
  exact transferEnsured_next_transfer_id s f g fn tn t

theorem transferUpdated_next_txn_id (s : DBState) (f g : Nat) (amount : Int)
    (fn tn : Option String) (t : Nat) :
    (transferUpdated s f g amount fn tn t).next_txn_id = s.next_txn_id := by
  show (transferEnsured s f g fn tn t).next_txn_id = _
  exact transferEnsured_next_txn_id s f g fn tn t

theorem transferCommit_balance (s : DBState) (f g : Nat) (amount : Int)
    (fn tn : Option String) (t : Nat) (v : Nat) :
    get_balance (transferCommit s f g amount fn tn t) v =
      get_balance s v + (if f = v then -amount else 0) + (if g = v then amount else 0) := by
  simp only [transferCommit]
  rw [get_balance_insert_transaction, get_balance_insert_transaction, get_balance_insertTransfer]
  exact transferUpdated_balance s f g amount fn tn t v

theorem transferCommit_payments (s : DBState) (f g : Nat) (amount : Int)
    (fn tn : Option String) (t : Nat) :
    (transferCommit s f g amount fn tn t).payments = s.payments := by
  show (transferUpdated s f g amount fn tn t).payments = _
  exact transferUpdated_payments s f g amount fn tn t

theorem transferCommit_transfers (s : DBState) (f g : Nat) (amount : Int)
    (fn tn : Option String) (t : Nat) :
    (transferCommit s f g amount fn tn t).transfers =
      s.transfers ++ [⟨s.next_transfer_id, f, g, amount, t⟩] := by
  show (transferUpdated s f g amount fn tn t).transfers ++
      [⟨(transferUpdated s f g amount fn tn t).next_transfer_id, f, g, amount, t⟩] = _
  rw [transferUpdated_transfers, transferUpdated_next_transfer_id]

theorem transferCommit_transactions (s : DBState) (f g : Nat) (amount : Int)
    (fn tn : Option String) (t : Nat) :
    (transferCommit s f g amount fn tn t).transactions =
      s.transactions ++
        [⟨s.next_txn_id, f, .gift_out, amount, some g, none,
          some ("Подарок " ++ toString amount ++ "⭐ пользователю " ++ toString g),
          some (get_balance (transferUpdated s f g amount fn tn t) f), t⟩,
         ⟨s.next_txn_id + 1, g, .gift_in, amount, some f, none,
          some ("Получен подарок " ++ toString amount ++ "⭐ от пользователя " ++ toString f),
          some (get_balance (transferUpdated s f g amount fn tn t) g), t⟩] := by
  simp only [transferCommit]
  rw [insert_transaction_transactions, insert_transaction_transactions]
  simp only [insert_transaction_next_txn_id, insertTransfer_transactions,
    insertTransfer_next_txn_id, get_balance_insertTransfer, transferUpdated_transactions,
    transferUpdated_next_txn_id]
  simp [List.append_assoc]

theorem transfer_nonpos (s : DBState) (f g : Nat) (amount : Int) (fn tn : Option String)
    (t : Nat) (h : amount ≤ 0) :
    transfer s f g amount fn tn t = (.error "amount must be positive", s) := by
  unfold transfer
  rw [if_pos h]

theorem transfer_insufficient (s : DBState) (f g : Nat) (amount : Int) (fn tn : Option String)
    (t : Nat) (h1 : ¬ amount ≤ 0) (h2 : get_balance s f < amount) :
    transfer s f g amount fn tn t = (.error "insufficient_funds", s) := by
  unfold transfer
  rw [if_neg h1, if_pos (by rw [get_balance_transferEnsured]; exact h2)]

theorem transfer_success (s : DBState) (f g : Nat) (amount : Int) (fn tn : Option String)
    (t : Nat) (h1 : ¬ amount ≤ 0) (h2 : ¬ get_balance s f < amount) :
    transfer s f g amount fn tn t =
      (.ok s.next_transfer_id, transferCommit s f g amount fn tn t) := by
  unfold transfer
  rw [if_neg h1, if_neg (by rw [get_balance_transferEnsured]; exact h2)]
  rw [transferUpdated_next_transfer_id]

/-! ### The failure and success paths of `mark_refund` -/

theorem mark_refund_notfound (s : DBState) (uid : Nat) (cid : String) (amount : Int) (t : Nat)
    (h : s.payments.find? (fun p => p.charge_id == cid && p.user_id == uid) = none) :
    mark_refund s uid cid amount t = (false, s) := by
  unfold mark_refund
  rw [h]

theorem mark_refund_already (s : DBState) (uid : Nat) (cid : String) (amount : Int) (t : Nat)
    (row : Payment)
    (h : s.payments.find? (fun p => p.charge_id == cid && p.user_id == uid) = some row)
    (hr : row.refunded = true) :
    mark_refund s uid cid amount t = (false, s) := by
  unfold mark_refund
  rw [h]
  simp [hr]

theorem mark_refund_mismatch (s : DBState) (uid : Nat) (cid : String) (amount : Int) (t : Nat)
    (row : Payment)
    (h : s.payments.find? (fun p => p.charge_id == cid && p.user_id == uid) = some row)
    (hr : row.refunded = false) (hm : row.amount ≠ amount) :
    mark_refund s uid cid amount t = (false, s) := by
  unfold mark_refund
  rw [h]
  simp [hr, hm]

theorem mark_refund_insufficient (s : DBState) (uid : Nat) (cid : String) (amount : Int)
    (t : Nat) (row : Payment)
    (h : s.payments.find? (fun p => p.charge_id == cid && p.user_id == uid) = some row)
    (hr : row.refunded = false) (hm : row.amount = amount)
    (hb : get_balance s uid < amount) :
    mark_refund s uid cid amount t = (false, s) := by
  unfold mark_refund
  rw [h]
  simp [hr, hm, hb]

theorem mark_refund_success (s : DBState) (uid : Nat) (cid : String) (amount : Int) (t : Nat)
    (row : Payment)
    (h : s.payments.find? (fun p => p.charge_id == cid && p.user_id == uid) = some row)
    (hr : row.refunded = false) (hm : row.amount = amount)
    (hb : ¬ get_balance s uid < amount) :
    mark_refund s uid cid amount t = (true, refundCommit s uid cid amount row.id t) := by
  unfold mark_refund
  rw [h]
  simp [hr, hm, hb]

theorem refundCommit_balance (s : DBState) (uid : Nat) (cid : String) (amount : Int)
    (pid : Nat) (t : Nat) (v : Nat) (hu : (findUser s uid).isSome) :
    get_balance (refundCommit s uid cid amount pid t) v =
      get_balance s v + (if uid = v then -amount else 0) := by
  simp only [refundCommit]
  rw [get_balance_insert_transaction]
  by_cases hv : uid = v
  · subst hv
    rw [get_balance_updateBalance_self _ _ _ _ (by rw [findUser_flipRefund]; exact hu)]
    rw [get_balance_flipRefund]
    simp
  · rw [get_balance_updateBalance_other _ _ _ _ _ (fun hh => hv hh.symm)]
    rw [get_balance_flipRefund]
    simp [hv]

theorem refundCommit_payments (s : DBState) (uid : Nat) (cid : String) (amount : Int)
    (pid : Nat) (t : Nat) :
    (refundCommit s uid cid amount pid t).payments =
      s.payments.map (fun p => if p.id == pid then { p with refunded := true } else p) := rfl

theorem refundCommit_transfers (s : DBState) (uid : Nat) (cid : String) (amount : Int)
    (pid : Nat) (t : Nat) :
    (refundCommit s uid cid amount pid t).transfers = s.transfers := rfl

theorem refundCommit_transactions (s : DBState) (uid : Nat) (cid : String) (amount : Int)
    (pid : Nat) (t : Nat) (hu : (findUser s uid).isSome) :
    (refundCommit s uid cid amount pid t).transactions =
      s.transactions ++ [⟨s.next_txn_id, uid, .refund, amount, none, some cid,
        some "Возврат Stars пользователю", some (get_balance s uid + -amount), t⟩] := by
  simp only [refundCommit]
  rw [insert_transaction_transactions]
  rw [show (updateBalance (flipRefund s pid) uid (-amount) t).transactions =
      s.transactions from rfl]
  rw [show (updateBalance (flipRefund s pid) uid (-amount) t).next_txn_id =
      s.next_txn_id from rfl]
  rw [get_balance_updateBalance_self _ _ _ _ (by rw [findUser_flipRefund]; exact hu)]
  rw [get_balance_flipRefund]

/-! ### Preservation of the invariants by every committed call -/

theorem signedSum_append_two {s s' : DBState} {e1 e2 : Txn}
    (h : s'.transactions = s.transactions ++ [e1, e2]) (v : Nat) :
    signedSum s' v = signedSum s v + (if e1.user_id = v then signedAmount e1 else 0)
      + (if e2.user_id = v then signedAmount e2 else 0) := by
  unfold signedSum
  rw [h, List.filter_append, List.map_append, List.sum_append]
  by_cases h1 : e1.user_id = v
  · by_cases h2 : e2.user_id = v
    · simp [h1, h2]; ring
    · simp [h1, h2]
  · by_cases h2 : e2.user_id = v
    · simp [h1, h2]
    · simp [h1, h2]

theorem step_inv {s s' : DBState} (hs : Step s s') (hg : GoodState s)
    (hb : ∀ v, get_balance s v = signedSum s v) :
    GoodState s' ∧ (∀ v, get_balance s' v = signedSum s' v) := by
  cases hs with
  | ensure uid un t =>
    refine ⟨⟨?_, ?_⟩, ?_⟩
    · intro v
      rw [show ensure_user s uid un t = ensure_user_tx s uid un t from rfl, get_balance_ensure]
      exact hg.1 v
    · intro p hp
      rw [show ensure_user s uid un t = ensure_user_tx s uid un t from rfl,
        ensure_payments] at hp
      exact hg.2 p hp
    · intro v
      rw [show ensure_user s uid un t = ensure_user_tx s uid un t from rfl, get_balance_ensure,
        signedSum_congr (ensure_transactions s uid un t) v]
      exact hb v
  | purchase uid un amount cid t hpos =>
    by_cases hdup : payment_exists s cid = true
    · have heq : (add_purchase s uid un amount cid t).2 = s := by
        rw [add_purchase_dup s uid un amount cid t hdup]
      rw [heq]
      exact ⟨hg, hb⟩
    · have hfresh : payment_exists s cid = false := by
        cases hx : payment_exists s cid with
        | true => exact absurd hx hdup
        | false => rfl
      have heq : (add_purchase s uid un amount cid t).2 =
          purchaseCommit s uid un amount cid t := by
        rw [add_purchase_fresh s uid un amount cid t hfresh]
      rw [heq]
      refine ⟨⟨?_, ?_⟩, ?_⟩
      · intro v
        rw [purchaseCommit_balance]
        have h3 := hg.1 v
        by_cases hv : uid = v <;> simp [hv] <;> omega
      · intro p hp
        rw [purchaseCommit_payments] at hp
        rcases List.mem_append.mp hp with h | h
        · exact hg.2 p h
        · rw [List.mem_singleton.mp h]
          exact hpos
      · intro v
        rw [purchaseCommit_balance,
          signedSum_append_entry (purchaseCommit_transactions s uid un amount cid t) v,
          hb v]
        by_cases hv : uid = v <;> simp [hv, signedAmount]
  | gift f g amount fname tname t =>
    by_cases h1 : amount ≤ 0
    · have heq : (transfer s f g amount fname tname t).2 = s := by
        rw [transfer_nonpos s f g amount fname tname t h1]
      rw [heq]
      exact ⟨hg, hb⟩
    · by_cases h2 : get_balance s f < amount
      · have heq : (transfer s f g amount fname tname t).2 = s := by
          rw [transfer_insufficient s f g amount fname tname t h1 h2]
        rw [heq]
        exact ⟨hg, hb⟩
      · have heq : (transfer s f g amount fname tname t).2 =
            transferCommit s f g amount fname tname t := by
          rw [transfer_success s f g amount fname tname t h1 h2]
        rw [heq]
        refine ⟨⟨?_, ?_⟩, ?_⟩
        · intro v
          rw [transferCommit_balance]
          have h3 := hg.1 v
          by_cases hf : f = v
          · subst hf
            by_cases hgv : g = f <;> simp [hgv] <;> omega
          · by_cases hgv : g = v <;> simp [hf, hgv] <;> omega
        · intro p hp
          rw [transferCommit_payments] at hp
          exact hg.2 p hp
        · intro v
          rw [transferCommit_balance,
            signedSum_append_two (transferCommit_transactions s f g amount fname tname t) v,
            hb v]
          by_cases hf : f = v <;> by_cases hgv : g = v <;> simp [hf, hgv, signedAmount]
  | refund uid cid amount t =>
    cases hfind : s.payments.find? (fun p => p.charge_id == cid && p.user_id == uid) with
    | none =>
      have heq : (mark_refund s uid cid amount t).2 = s := by
        rw [mark_refund_notfound s uid cid amount t hfind]
      rw [heq]
      exact ⟨hg, hb⟩
    | some row =>
      by_cases hr : row.refunded = true
      · have heq : (mark_refund s uid cid amount t).2 = s := by
          rw [mark_refund_already s uid cid amount t row hfind hr]
        rw [heq]
        exact ⟨hg, hb⟩
      · have hr' : row.refunded = false := by
          cases hx : row.refunded with
          | true => exact absurd hx hr
          | false => rfl
        by_cases hm : row.amount = amount
        · by_cases hb2 : get_balance s uid < amount
          · have heq : (mark_refund s uid cid amount t).2 = s := by
              rw [mark_refund_insufficient s uid cid amount t row hfind hr' hm hb2]
            rw [heq]
            exact ⟨hg, hb⟩
          · have heq : (mark_refund s uid cid amount t).2 =
                refundCommit s uid cid amount row.id t := by
              rw [mark_refund_success s uid cid amount t row hfind hr' hm hb2]
            have hrow : row ∈ s.payments := List.mem_of_find?_eq_some hfind
            have hposr : 0 < row.amount := hg.2 row hrow
            have hposa : 0 < amount := hm ▸ hposr
            have hble : amount ≤ get_balance s uid := Int.not_lt.mp hb2
            have hu : (findUser s uid).isSome := by
              cases hfu : findUser s uid with
              | some u => rfl
              | none =>
                exfalso
                have h0 : get_balance s uid = 0 := by unfold get_balance; rw [hfu]
                rw [h0] at hble
                omega
            rw [heq]
            refine ⟨⟨?_, ?_⟩, ?_⟩
            · intro v
              rw [refundCommit_balance _ _ _ _ _ _ _ hu]
              have h3 := hg.1 v
              by_cases hv : uid = v
              · subst hv; simp; omega
              · simp [hv]; omega
            · intro p hp
              rw [refundCommit_payments] at hp
              rcases List.mem_map.mp hp with ⟨q, hq, hq2⟩
              have hamt : p.amount = q.amount := by
                rw [← hq2]
                by_cases hid : (q.id == row.id) = true <;> simp [hid]
              rw [hamt]
              exact hg.2 q hq
            · intro v
              rw [refundCommit_balance _ _ _ _ _ _ _ hu,
                signedSum_append_entry (refundCommit_transactions s uid cid amount row.id t hu) v,
                hb v]
              by_cases hv : uid = v <;> simp [hv, signedAmount]
        · have heq : (mark_refund s uid cid amount t).2 = s := by
            rw [mark_refund_mismatch s uid cid amount t row hfind hr' hm]
          rw [heq]
          exact ⟨hg, hb⟩

/-- Every reachable state has non-negative balances, positive payment
amounts, and a balance equal to its account's ledger replay. -/
theorem reach_inv (s : DBState) (h : Reach s) :
    GoodState s ∧ (∀ v, get_balance s v = signedSum s v) := by
  induction h with
  | init =>
    refine ⟨⟨?_, ?_⟩, ?_⟩
    · intro v; rfl
    · intro p hp; cases hp
    · intro v; rfl
  | step hr hs ih => exact step_inv hs ih.1 ih.2

/-- Every ledger row appended by a committed call carries `balance_after`
equal to its account's balance in the state the call commits. -/
theorem step_entries_balance_after {s s' : DBState} (hs : Step s s') :
    ∀ e ∈ s'.transactions, e ∈ s.transactions ∨
      e.balance_after = some (get_balance s' e.user_id) := by
  cases hs with
  | ensure uid un t =>
    intro e he
    left
    rwa [show (ensure_user s uid un t).transactions = s.transactions from
      ensure_transactions s uid un t] at he
  | purchase uid un amount cid t hpos =>
    by_cases hdup : payment_exists s cid = true
    · have heq : (add_purchase s uid un amount cid t).2 = s := by
        rw [add_purchase_dup s uid un amount cid t hdup]
      rw [heq]
      intro e he
      left
      exact he
    · have hfresh : payment_exists s cid = false := by
        cases hx : payment_exists s cid with
        | true => exact absurd hx hdup
        | false => rfl
      have heq : (add_purchase s uid un amount cid t).2 =
          purchaseCommit s uid un amount cid t := by
        rw [add_purchase_fresh s uid un amount cid t hfresh]
      rw [heq]
      intro e he
      simp only [purchaseCommit] at he ⊢
      rw [insert_transaction_transactions] at he
      rcases List.mem_append.mp he with h | h
      · left
        rwa [show (updateBalance (insertPayment (ensure_user_tx s uid un t) uid amount cid t)
            uid amount t).transactions = s.transactions from by
          rw [updateBalance_transactions]
          show (ensure_user_tx s uid un t).transactions = _
          exact ensure_transactions s uid un t] at h
      · right
        rw [List.mem_singleton.mp h]
        rw [get_balance_insert_transaction]
  | gift f g amount fname tname t =>
    by_cases h1 : amount ≤ 0
    · have heq : (transfer s f g amount fname tname t).2 = s := by
        rw [transfer_nonpos s f g amount fname tname t h1]
      rw [heq]
      intro e he
      left
      exact he
    · by_cases h2 : get_balance s f < amount
      · have heq : (transfer s f g amount fname tname t).2 = s := by
          rw [transfer_insufficient s f g amount fname tname t h1 h2]
        rw [heq]
        intro e he
        left
        exact he
      · have heq : (transfer s f g amount fname tname t).2 =
            transferCommit s f g amount fname tname t := by
          rw [transfer_success s f g amount fname tname t h1 h2]
        rw [heq]
        intro e he
        simp only [transferCommit] at he ⊢
        rw [insert_transaction_transactions] at he
        rcases List.mem_append.mp he with h | h
        · rw [insert_transaction_transactions] at h
          rcases List.mem_append.mp h with h' | h'
          · left
            rwa [show (insertTransfer (transferUpdated s f g amount fname tname t)
                f g amount t).transactions =
              s.transactions from by
                rw [insertTransfer_transactions, transferUpdated_transactions]] at h'
          · right
            rw [List.mem_singleton.mp h']
            rw [get_balance_insert_transaction, get_balance_insert_transaction]
        · right
          rw [List.mem_singleton.mp h]
          rw [get_balance_insert_transaction, get_balance_insert_transaction]
  | refund uid cid amount t =>
    cases hfind : s.payments.find? (fun p => p.charge_id == cid && p.user_id == uid) with
    | none =>
      have heq : (mark_refund s uid cid amount t).2 = s := by
        rw [mark_refund_notfound s uid cid amount t hfind]
      rw [heq]
      intro e he
      left
      exact he
    | some row =>
      by_cases hr : row.refunded = true
      · have heq : (mark_refund s uid cid amount t).2 = s := by
          rw [mark_refund_already s uid cid amount t row hfind hr]
        rw [heq]
        intro e he
        left
        exact he
      · have hr' : row.refunded = false := by
          cases hx : row.refunded with
          | true => exact absurd hx hr
          | false => rfl
        by_cases hm : row.amount = amount
        · by_cases hb2 : get_balance s uid < amount
          · have heq : (mark_refund s uid cid amount t).2 = s := by
              rw [mark_refund_insufficient s uid cid amount t row hfind hr' hm hb2]
            rw [heq]
            intro e he
            left
            exact he
          · have heq : (mark_refund s uid cid amount t).2 =
                refundCommit s uid cid amount row.id t := by
              rw [mark_refund_success s uid cid amount t row hfind hr' hm hb2]
            rw [heq]
            intro e he
            simp only [refundCommit] at he ⊢
            rw [insert_transaction_transactions] at he
            rcases List.mem_append.mp he with h | h
            · left
              rwa [show (updateBalance (flipRefund s row.id) uid (-amount) t).transactions =
                s.transactions from rfl] at h
            · right
              rw [List.mem_singleton.mp h]
              rw [get_balance_insert_transaction]
        · have heq : (mark_refund s uid cid amount t).2 = s := by
            rw [mark_refund_mismatch s uid cid amount t row hfind hr' hm]
          rw [heq]
          intro e he
          left
          exact he

/-- No committed call ever deletes a recorded `charge_id`. -/
theorem payment_exists_step {s s' : DBState} (hs : Step s s') (cid : String)
    (h : payment_exists s cid = true) : payment_exists s' cid = true := by
  cases hs with
  | ensure uid un t =>
    unfold payment_exists at h ⊢
    rw [show (ensure_user s uid un t).payments = s.payments from ensure_payments s uid un t]
    exact h
  | purchase uid un amount cid2 t hpos =>
    by_cases hdup : payment_exists s cid2 = true
    · have heq : (add_purchase s uid un amount cid2 t).2 = s := by
        rw [add_purchase_dup s uid un amount cid2 t hdup]
      rw [heq]
      exact h
    · have hfresh : payment_exists s cid2 = false := by
        cases hx : payment_exists s cid2 with
        | true => exact absurd hx hdup
        | false => rfl
      have heq : (add_purchase s uid un amount cid2 t).2 =
          purchaseCommit s uid un amount cid2 t := by
        rw [add_purchase_fresh s uid un amount cid2 t hfresh]
      rw [heq]
      unfold payment_exists at h ⊢
      rw [purchaseCommit_payments, List.any_append, h]
      rfl
  | gift f g amount fn tn t =>
    by_cases h1 : amount ≤ 0
    · have heq : (transfer s f g amount fn tn t).2 = s := by
        rw [transfer_nonpos s f g amount fn tn t h1]
      rw [heq]
      exact h
    · by_cases h2 : get_balance s f < amount
      · have heq : (transfer s f g amount fn tn t).2 = s := by
          rw [transfer_insufficient s f g amount fn tn t h1 h2]
        rw [heq]
        exact h
      · have heq : (transfer s f g amount fn tn t).2 = transferCommit s f g amount fn tn t := by
          rw [transfer_success s f g amount fn tn t h1 h2]
        rw [heq]
        unfold payment_exists at h ⊢
        rw [transferCommit_payments]
        exact h
  | refund uid cid2 amount t =>
    cases hfind : s.payments.find? (fun p => p.charge_id == cid2 && p.user_id == uid) with
    | none =>
      have heq : (mark_refund s uid cid2 amount t).2 = s := by
        rw [mark_refund_notfound s uid cid2 amount t hfind]
      rw [heq]
      exact h
    | some row =>
      by_cases hr : row.refunded = true
      · have heq : (mark_refund s uid cid2 amount t).2 = s := by
          rw [mark_refund_already s uid cid2 amount t row hfind hr]
        rw [heq]
        exact h
      · have hr' : row.refunded = false := by
          cases hx : row.refunded with
          | true => exact absurd hx hr
          | false => rfl
        by_cases hm : row.amount = amount
        · by_cases hb2 : get_balance s uid < amount
          · have heq : (mark_refund s uid cid2 amount t).2 = s := by
              rw [mark_refund_insufficient s uid cid2 amount t row hfind hr' hm hb2]
            rw [heq]
            exact h
          · have heq : (mark_refund s uid cid2 amount t).2 =
                refundCommit s uid cid2 amount row.id t := by
              rw [mark_refund_success s uid cid2 amount t row hfind hr' hm hb2]
            rw [heq]
            unfold payment_exists at h ⊢
            rw [refundCommit_payments, List.any_map]
            have hfn : ((fun p : Payment => p.charge_id == cid) ∘
                (fun p : Payment => if p.id == row.id then { p with refunded := true } else p)) =
                (fun p : Payment => p.charge_id == cid) := by
              funext q
              by_cases hq : q.id = row.id <;> simp [hq]
            rw [hfn]
            exact h
        · have heq : (mark_refund s uid cid2 amount t).2 = s := by
            rw [mark_refund_mismatch s uid cid2 amount t row hfind hr' hm]
          rw [heq]
          exact h

/-- Charge ids persist across any number of committed calls. -/
theorem payment_exists_steps {s s' : DBState} (hs : Steps s s') (cid : String)
    (h : payment_exists s cid = true) : payment_exists s' cid = true := by
  induction hs with
  | refl => exact h
  | tail hst hstep ih => exact payment_exists_step hstep cid ih

theorem purchaseCommit_payment_exists (s : DBState) (uid : Nat) (un : Option String)
    (amount : Int) (cid : String) (t : Nat) :
    payment_exists (purchaseCommit s uid un amount cid t) cid = true := by
  unfold payment_exists
  rw [purchaseCommit_payments, List.any_append]
  simp

theorem chargeCount_purchaseCommit (s : DBState) (uid : Nat) (un : Option String)
    (amount : Int) (cid : String) (t : Nat) :
    chargeCount (purchaseCommit s uid un amount cid t) cid = chargeCount s cid + 1 := by
  unfold chargeCount
  rw [purchaseCommit_payments, List.filter_append]
  simp

theorem chargeCount_eq_zero (s : DBState) (cid : String)
    (h : payment_exists s cid = false) : chargeCount s cid = 0 := by
  unfold payment_exists at h
  unfold chargeCount
  simp only [List.any_eq_false] at h
  simp only [List.length_eq_zero, List.filter_eq_nil_iff]
  exact h

end StarBot

namespace StarBot

/-! ### Claim theorems -/

/-- C5 counterexample: an account whose displayName is the known, non-empty
`"alice"` has it replaced by the empty string when `ensure_user` is called
with an empty — but non-NULL — new value, although the claim says a known
name is never erased or replaced by an empty value.  `COALESCE` only guards
against NULL, not against `""`. -/
theorem c5_counterexample :
    (findUser (⟨[⟨1, some "alice", 0, 0, 0⟩], [], [], [], 1, 1, 1⟩ : DBState) 1).map
        (fun u => u.username) = some (some "alice")
    ∧ (findUser (ensure_user (⟨[⟨1, some "alice", 0, 0, 0⟩], [], [], [], 1, 1, 1⟩ : DBState) 1
        (some "") 5) 1).map (fun u => u.username) = some (some "") := by
  exact ⟨rfl, rfl⟩

/-- C5 (amended): `ensure_user` is an upsert that never touches balances: an
absent account is created with balance 0 and the given name; an existing
account keeps its balance, and its displayName is overwritten exactly when
the new value is non-NULL — a NULL (`none`) name never erases a known name,
though a non-NULL empty string does overwrite it. -/
theorem c5_ensure_user (s : DBState) (uid : Nat) (un : Option String) (t : Nat) :
    (∀ v, get_balance (ensure_user s uid un t) v = get_balance s v)
    ∧ (findUser s uid = none →
        findUser (ensure_user s uid un t) uid = some ⟨uid, un, 0, t, t⟩)
    ∧ (∀ u, findUser s uid = some u →
        findUser (ensure_user s uid un t) uid =
          some { u with username := coalesceName un u.username, updated_at := t }
        ∧ (un = none → coalesceName un u.username = u.username)
        ∧ (∀ x, un = some x → coalesceName un u.username = some x))
    ∧ (∀ v, v ≠ uid → findUser (ensure_user s uid un t) v = findUser s v) := by
  refine ⟨?_, ?_, ?_, ?_⟩
  · intro v
    exact get_balance_ensure s uid un t v
  · intro h
    unfold ensure_user
    rw [findUser_ensure_self, h]
  · intro u h
    refine ⟨?_, ?_, ?_⟩
    · unfold ensure_user
      rw [findUser_ensure_self, h]
    · intro hn
      rw [hn]
      rfl
    · intro x hx
      rw [hx]
      rfl
  · intro v hv
    exact findUser_ensure_other s uid v un t hv

/-- C5 witness: creating a fresh account 7 with a name stores that name and
balance 0. -/
theorem c5_witness :
    findUser (ensure_user initState 7 (some "bob") 3) 7 = some ⟨7, some "bob", 0, 3, 3⟩
    ∧ get_balance (ensure_user initState 7 (some "bob") 3) 7 = 0 := by
  have h := c5_ensure_user initState 7 (some "bob") 3
  exact ⟨h.2.1 rfl, by rw [h.1 7]; rfl⟩

/-- C6: `get_balance` commits no write (the state after the call is the
state before it), returns 0 for an id with no account row, returns the
stored balance for an existing account, and on every reachable database
that stored balance is ≥ 0. -/
theorem c6_get_balance (s : DBState) (v : Nat) :
    (get_balance_call s v).2 = s
    ∧ (findUser s v = none → get_balance s v = 0)
    ∧ (∀ u, findUser s v = some u → get_balance s v = u.balance)
    ∧ (Reach s → 0 ≤ get_balance s v) := by
  refine ⟨rfl, ?_, ?_, ?_⟩
  · intro h
    unfold get_balance
    rw [h]
  · intro u h
    unfold get_balance
    rw [h]
  · intro h
    exact (reach_inv s h).1.1 v

/-- C6 witness: an unknown id on the fresh database reads 0, non-negative,
with the state unchanged. -/
theorem c6_witness :
    (get_balance_call initState 42).2 = initState
    ∧ get_balance initState 42 = 0
    ∧ 0 ≤ get_balance initState 42 := by
  have h := c6_get_balance initState 42
  exact ⟨h.1, h.2.1 rfl, h.2.2.2 Reach.init⟩

/-- C10: a self-transfer (`from = to`) with `0 < amount ≤ balance` succeeds:
the account's final balance equals its initial balance (debit and credit
cancel), and one `transfers` row plus a `gift_out` and a `gift_in` ledger
entry — both for that same account — are still appended. -/
theorem c10_self_transfer (s : DBState) (uid : Nat) (amount : Int)
    (fn tn : Option String) (t : Nat) (h1 : 0 < amount)
    (h2 : amount ≤ get_balance s uid) :
    (transfer s uid uid amount fn tn t).1 = .ok s.next_transfer_id
    ∧ get_balance (transfer s uid uid amount fn tn t).2 uid = get_balance s uid
    ∧ (transfer s uid uid amount fn tn t).2.transfers =
        s.transfers ++ [⟨s.next_transfer_id, uid, uid, amount, t⟩]
    ∧ (∃ e1 e2, (transfer s uid uid amount fn tn t).2.transactions =
        s.transactions ++ [e1, e2]
        ∧ e1.user_id = uid ∧ e1.type = .gift_out ∧ e1.amount = amount
        ∧ e2.user_id = uid ∧ e2.type = .gift_in ∧ e2.amount = amount) := by
  have h1' : ¬ amount ≤ 0 := by omega
  have h2' : ¬ get_balance s uid < amount := by omega
  have heq1 : (transfer s uid uid amount fn tn t).1 = .ok s.next_transfer_id := by
    rw [transfer_success s uid uid amount fn tn t h1' h2']
  have heq2 : (transfer s uid uid amount fn tn t).2 =
      transferCommit s uid uid amount fn tn t := by
    rw [transfer_success s uid uid amount fn tn t h1' h2']
  refine ⟨heq1, ?_, ?_, ?_⟩
  · rw [heq2, transferCommit_balance]
    simp
  · rw [heq2, transferCommit_transfers]
  · rw [heq2, transferCommit_transactions]
    exact ⟨_, _, rfl, rfl, rfl, rfl, rfl, rfl, rfl⟩

/-- C10 witness: a self-transfer of 4 on an account holding 10 succeeds and
leaves the balance at 10. -/
theorem c10_witness :
    (transfer (⟨[⟨1, none, 10, 0, 0⟩], [], [], [], 1, 1, 1⟩ : DBState) 1 1 4 none none 2).1 =
      .ok 1
    ∧ get_balance (transfer (⟨[⟨1, none, 10, 0, 0⟩], [], [], [], 1, 1, 1⟩ : DBState)
        1 1 4 none none 2).2 1 = 10 := by
  have h := c10_self_transfer ⟨[⟨1, none, 10, 0, 0⟩], [], [], [], 1, 1, 1⟩ 1 4 none none 2
    (by decide) (by decide)
  exact ⟨h.1, by rw [h.2.1]; rfl⟩

end StarBot

namespace StarBot

/-- C1: `add_purchase` is idempotent under the `charge_id` key.  A first
call with a fresh `charge_id` returns `True`, inserts exactly one payment
row with that `charge_id`, credits the balance once, and appends exactly one
`purchase` ledger entry; after it, any later call with the same `charge_id`
— after any further committed calls — returns `False` with the state
exactly as it was (zero side effects). -/
theorem c1_add_purchase_idempotent (s : DBState) (uid : Nat) (un : Option String)
    (amount : Int) (cid : String) (t : Nat)
    (hfresh : payment_exists s cid = false) :
    (add_purchase s uid un amount cid t).1 = true
    ∧ chargeCount (add_purchase s uid un amount cid t).2 cid = 1
    ∧ get_balance (add_purchase s uid un amount cid t).2 uid = get_balance s uid + amount
    ∧ (∃ e, (add_purchase s uid un amount cid t).2.transactions = s.transactions ++ [e]
        ∧ e.user_id = uid ∧ e.type = .purchase ∧ e.amount = amount ∧ e.charge_id = some cid)
    ∧ (∀ s2, Steps (add_purchase s uid un amount cid t).2 s2 →
        ∀ uid2 un2 amount2 t2, add_purchase s2 uid2 un2 amount2 cid t2 = (false, s2)) := by
  have heq1 : (add_purchase s uid un amount cid t).1 = true := by
    rw [add_purchase_fresh s uid un amount cid t hfresh]
  have heq2 : (add_purchase s uid un amount cid t).2 =
      purchaseCommit s uid un amount cid t := by
    rw [add_purchase_fresh s uid un amount cid t hfresh]
  refine ⟨heq1, ?_, ?_, ?_, ?_⟩
  · rw [heq2, chargeCount_purchaseCommit, chargeCount_eq_zero s cid hfresh]
  · rw [heq2, purchaseCommit_balance]
    simp
  · rw [heq2, purchaseCommit_transactions]
    exact ⟨_, rfl, rfl, rfl, rfl, rfl⟩
  · intro s2 hsteps uid2 un2 amount2 t2
    have hex : payment_exists s2 cid = true := by
      apply payment_exists_steps hsteps cid
      rw [heq2]
      exact purchaseCommit_payment_exists s uid un amount cid t
    exact add_purchase_dup s2 uid2 un2 amount2 cid t2 hex

/-- C1 witness: on the fresh database, purchasing 5 with charge `"c1"`
credits once, and the very same call replayed afterwards returns `False`
and leaves the state untouched. -/
theorem c1_witness :
    (add_purchase initState 1 none 5 "c1" 0).1 = true
    ∧ chargeCount (add_purchase initState 1 none 5 "c1" 0).2 "c1" = 1
    ∧ get_balance (add_purchase initState 1 none 5 "c1" 0).2 1 = 5
    ∧ add_purchase (add_purchase initState 1 none 5 "c1" 0).2 1 none 5 "c1" 9 =
        (false, (add_purchase initState 1 none 5 "c1" 0).2) := by
  have h := c1_add_purchase_idempotent initState 1 none 5 "c1" 0 (by decide)
  refine ⟨h.1, h.2.1, ?_, h.2.2.2.2 _ (Steps.refl _) 1 none 5 9⟩
  rw [h.2.2.1]
  rfl

/-- C2: on every reachable database, each account's stored balance equals
the sum of its signed ledger amounts (credits `+amount` for
`purchase`/`gift_in`, debits `-amount` for `gift_out`/`refund`), and every
ledger row appended by a committed call carries `balance_after` equal to
that account's balance in the state the call commits. -/
theorem c2_ledger_replay :
    (∀ s, Reach s → ∀ v, get_balance s v = signedSum s v)
    ∧ (∀ s s', Step s s' → ∀ e ∈ s'.transactions,
        e ∈ s.transactions ∨ e.balance_after = some (get_balance s' e.user_id)) := by
  exact ⟨fun s h => (reach_inv s h).2, fun s s' hs => step_entries_balance_after hs⟩

/-- C2 witness: after one committed purchase of 5 on the fresh database the
balance equals the ledger replay, and each appended entry carries the
post-state balance. -/
theorem c2_witness :
    get_balance (add_purchase initState 1 none 5 "c" 0).2 1 =
      signedSum (add_purchase initState 1 none 5 "c" 0).2 1
    ∧ (∀ e ∈ (add_purchase initState 1 none 5 "c" 0).2.transactions,
        e ∈ initState.transactions ∨ e.balance_after =
          some (get_balance (add_purchase initState 1 none 5 "c" 0).2 e.user_id)) := by
  have h := c2_ledger_replay
  exact ⟨h.1 _ (Reach.step Reach.init (Step.purchase initState 1 none 5 "c" 0 (by decide))) 1,
    h.2 _ _ (Step.purchase initState 1 none 5 "c" 0 (by decide))⟩

/-- C3: `transfer` fails without any write exactly when `amount ≤ 0`
(`ValueError`) or the sender balance is below `amount`
(`insufficient_funds`), the failing call returning the state unchanged; on
success it debits the sender and credits the receiver by `amount` (for
distinct parties), appends one transfer row and one `gift_out` plus one
`gift_in` ledger entry, all in one commit unit; and a transfer never drives
a non-negative sender balance negative. -/
theorem c3_transfer (s : DBState) (f g : Nat) (amount : Int) (fn tn : Option String)
    (t : Nat) :
    (amount ≤ 0 → transfer s f g amount fn tn t = (.error "amount must be positive", s))
    ∧ (0 < amount → get_balance s f < amount →
        transfer s f g amount fn tn t = (.error "insufficient_funds", s))
    ∧ (0 < amount → amount ≤ get_balance s f →
        (transfer s f g amount fn tn t).1 = .ok s.next_transfer_id
        ∧ (f ≠ g → get_balance (transfer s f g amount fn tn t).2 f = get_balance s f - amount
            ∧ get_balance (transfer s f g amount fn tn t).2 g = get_balance s g + amount)
        ∧ (transfer s f g amount fn tn t).2.transfers =
            s.transfers ++ [⟨s.next_transfer_id, f, g, amount, t⟩]
        ∧ (∃ e1 e2, (transfer s f g amount fn tn t).2.transactions =
            s.transactions ++ [e1, e2]
            ∧ e1.user_id = f ∧ e1.type = .gift_out ∧ e1.amount = amount
            ∧ e2.user_id = g ∧ e2.type = .gift_in ∧ e2.amount = amount))
    ∧ (0 ≤ get_balance s f → 0 ≤ get_balance (transfer s f g amount fn tn t).2 f) := by
  refine ⟨?_, ?_, ?_, ?_⟩
  · intro h
    exact transfer_nonpos s f g amount fn tn t h
  · intro h1 h2
    exact transfer_insufficient s f g amount fn tn t (by omega) h2
  · intro h1 h2
    have h1' : ¬ amount ≤ 0 := by omega
    have h2' : ¬ get_balance s f < amount := by omega
    have heq1 : (transfer s f g amount fn tn t).1 = .ok s.next_transfer_id := by
      rw [transfer_success s f g amount fn tn t h1' h2']
    have heq2 : (transfer s f g amount fn tn t).2 = transferCommit s f g amount fn tn t := by
      rw [transfer_success s f g amount fn tn t h1' h2']
    refine ⟨heq1, ?_, ?_, ?_⟩
    · intro hne
      constructor
      · rw [heq2, transferCommit_balance]
        have : ¬ g = f := fun hh => hne hh.symm
        simp [this]
        ring
      · rw [heq2, transferCommit_balance]
        have : ¬ f = g := hne
        simp [this]
    · rw [heq2, transferCommit_transfers]
    · rw [heq2, transferCommit_transactions]
      exact ⟨_, _, rfl, rfl, rfl, rfl, rfl, rfl, rfl⟩
  · intro h0
    by_cases h1 : amount ≤ 0
    · rw [transfer_nonpos s f g amount fn tn t h1]
      exact h0
    · by_cases h2 : get_balance s f < amount
      · rw [transfer_insufficient s f g amount fn tn t h1 h2]
        exact h0
      · have heq2 : (transfer s f g amount fn tn t).2 =
            transferCommit s f g amount fn tn t := by
          rw [transfer_success s f g amount fn tn t h1 h2]
        rw [heq2, transferCommit_balance]
        by_cases hgf : g = f
        · simp [hgf]
          omega
        · simp [hgf]
          omega

/-- C3 witness: with sender 1 holding 10, a transfer of 4 to account 2
succeeds with the expected balances, a transfer of 0 is rejected, and a
transfer of 11 fails with `insufficient_funds`, both leaving the state
unchanged; the sender balance stays non-negative. -/
theorem c3_witness :
    (transfer (⟨[⟨1, none, 10, 0, 0⟩], [], [], [], 1, 1, 1⟩ : DBState)
        1 2 4 none none 7).1 = .ok 1
    ∧ get_balance (transfer (⟨[⟨1, none, 10, 0, 0⟩], [], [], [], 1, 1, 1⟩ : DBState)
        1 2 4 none none 7).2 1 = 6
    ∧ get_balance (transfer (⟨[⟨1, none, 10, 0, 0⟩], [], [], [], 1, 1, 1⟩ : DBState)
        1 2 4 none none 7).2 2 = 4
    ∧ transfer (⟨[⟨1, none, 10, 0, 0⟩], [], [], [], 1, 1, 1⟩ : DBState) 1 2 0 none none 7 =
        (.error "amount must be positive", ⟨[⟨1, none, 10, 0, 0⟩], [], [], [], 1, 1, 1⟩)
    ∧ transfer (⟨[⟨1, none, 10, 0, 0⟩], [], [], [], 1, 1, 1⟩ : DBState) 1 2 11 none none 7 =
        (.error "insufficient_funds", ⟨[⟨1, none, 10, 0, 0⟩], [], [], [], 1, 1, 1⟩)
    ∧ 0 ≤ get_balance (transfer (⟨[⟨1, none, 10, 0, 0⟩], [], [], [], 1, 1, 1⟩ : DBState)
        1 2 4 none none 7).2 1 := by
  have h := c3_transfer ⟨[⟨1, none, 10, 0, 0⟩], [], [], [], 1, 1, 1⟩ 1 2 4 none none 7
  have h0 := c3_transfer ⟨[⟨1, none, 10, 0, 0⟩], [], [], [], 1, 1, 1⟩ 1 2 0 none none 7
  have h11 := c3_transfer ⟨[⟨1, none, 10, 0, 0⟩], [], [], [], 1, 1, 1⟩ 1 2 11 none none 7
  have hs := h.2.2.1 (by decide) (by decide)
  refine ⟨hs.1, ?_, ?_, h0.1 (by decide), h11.2.1 (by decide) (by decide),
    h.2.2.2 (by decide)⟩
  · rw [(hs.2.1 (by decide)).1]
    rfl
  · rw [(hs.2.1 (by decide)).2]
    rfl

end StarBot

namespace StarBot

/-- C4 counterexample: a NotFound failure (no payment at all, fresh
database) and an AmountMismatch failure (recorded amount 50, requested 10)
both return the same bare `false`, so the caller cannot distinguish the
four failure modes from the result, contrary to the claim that each is
"distinguishable by the caller". -/
theorem c4_counterexample :
    initState.payments.find? (fun p => p.charge_id == "x" && p.user_id == 1) = none
    ∧ mark_refund initState 1 "x" 10 0 = (false, initState)
    ∧ (⟨[⟨1, none, 50, 0, 0⟩], [⟨1, 1, 50, "XTR", "c", false, 0⟩], [], [], 2, 1, 1⟩ :
        DBState).payments.find? (fun p => p.charge_id == "c" && p.user_id == 1) =
        some ⟨1, 1, 50, "XTR", "c", false, 0⟩
    ∧ (⟨1, 1, 50, "XTR", "c", false, 0⟩ : Payment).refunded = false
    ∧ (⟨1, 1, 50, "XTR", "c", false, 0⟩ : Payment).amount ≠ 10
    ∧ mark_refund (⟨[⟨1, none, 50, 0, 0⟩], [⟨1, 1, 50, "XTR", "c", false, 0⟩], [], [], 2, 1, 1⟩ :
        DBState) 1 "c" 10 0 =
        (false, ⟨[⟨1, none, 50, 0, 0⟩], [⟨1, 1, 50, "XTR", "c", false, 0⟩], [], [], 2, 1, 1⟩)
    ∧ (mark_refund initState 1 "x" 10 0).1 =
        (mark_refund (⟨[⟨1, none, 50, 0, 0⟩], [⟨1, 1, 50, "XTR", "c", false, 0⟩], [], [], 2, 1, 1⟩ :
          DBState) 1 "c" 10 0).1 := by
  refine ⟨rfl, rfl, rfl, rfl, ?_, rfl, rfl⟩
  decide

/-- C4 (amended): `mark_refund` surfaces its four failure conditions —
record absent, already refunded, amount mismatch, insufficient balance — by
returning `False` with the state unchanged in each case, but the boolean
result does not say which condition failed; on success it flips the found
row's `refunded` flag, debits the balance by `amount` and appends exactly
one `refund` ledger entry, all in one commit unit. -/
theorem c4_mark_refund (s : DBState) (uid : Nat) (cid : String) (amount : Int) (t : Nat) :
    (s.payments.find? (fun p => p.charge_id == cid && p.user_id == uid) = none →
      mark_refund s uid cid amount t = (false, s))
    ∧ (∀ row, s.payments.find? (fun p => p.charge_id == cid && p.user_id == uid) = some row →
        (row.refunded = true → mark_refund s uid cid amount t = (false, s))
        ∧ (row.refunded = false → row.amount ≠ amount →
            mark_refund s uid cid amount t = (false, s))
        ∧ (row.refunded = false → row.amount = amount → get_balance s uid < amount →
            mark_refund s uid cid amount t = (false, s))
        ∧ (row.refunded = false → row.amount = amount → amount ≤ get_balance s uid →
            (findUser s uid).isSome →
            (mark_refund s uid cid amount t).1 = true
            ∧ get_balance (mark_refund s uid cid amount t).2 uid = get_balance s uid - amount
            ∧ (mark_refund s uid cid amount t).2.payments =
                s.payments.map (fun p => if p.id == row.id then
                  { p with refunded := true } else p)
            ∧ (∃ e, (mark_refund s uid cid amount t).2.transactions = s.transactions ++ [e]
                ∧ e.user_id = uid ∧ e.type = .refund ∧ e.amount = amount
                ∧ e.charge_id = some cid))) := by
  refine ⟨?_, ?_⟩
  · intro h
    exact mark_refund_notfound s uid cid amount t h
  · intro row hfind
    refine ⟨?_, ?_, ?_, ?_⟩
    · intro hr
      exact mark_refund_already s uid cid amount t row hfind hr
    · intro hr hm
      exact mark_refund_mismatch s uid cid amount t row hfind hr hm
    · intro hr hm hb
      exact mark_refund_insufficient s uid cid amount t row hfind hr hm hb
    · intro hr hm hb hu
      have hb' : ¬ get_balance s uid < amount := by omega
      have heq1 : (mark_refund s uid cid amount t).1 = true := by
        rw [mark_refund_success s uid cid amount t row hfind hr hm hb']
      have heq2 : (mark_refund s uid cid amount t).2 =
          refundCommit s uid cid amount row.id t := by
        rw [mark_refund_success s uid cid amount t row hfind hr hm hb']
      refine ⟨heq1, ?_, ?_, ?_⟩
      · rw [heq2, refundCommit_balance _ _ _ _ _ _ _ hu]
        simp
        ring
      · rw [heq2, refundCommit_payments]
      · rw [heq2, refundCommit_transactions _ _ _ _ _ _ hu]
        exact ⟨_, rfl, rfl, rfl, rfl, rfl⟩

/-- C4 witness: a refundable payment of 30 out of balance 50 refunds
successfully, returning `true`, flipping the flag and leaving balance 20;
the NotFound case on the same state returns `false` unchanged. -/
theorem c4_witness :
    (mark_refund (⟨[⟨1, none, 50, 0, 0⟩], [⟨1, 1, 30, "XTR", "c", false, 0⟩], [], [], 2, 1, 1⟩ :
        DBState) 1 "c" 30 4).1 = true
    ∧ get_balance (mark_refund (⟨[⟨1, none, 50, 0, 0⟩],
        [⟨1, 1, 30, "XTR", "c", false, 0⟩], [], [], 2, 1, 1⟩ : DBState) 1 "c" 30 4).2 1 = 20
    ∧ mark_refund (⟨[⟨1, none, 50, 0, 0⟩], [⟨1, 1, 30, "XTR", "c", false, 0⟩], [], [],
        2, 1, 1⟩ : DBState) 1 "zz" 30 4 =
        (false, ⟨[⟨1, none, 50, 0, 0⟩], [⟨1, 1, 30, "XTR", "c", false, 0⟩], [], [], 2, 1, 1⟩) := by
  have h := c4_mark_refund ⟨[⟨1, none, 50, 0, 0⟩], [⟨1, 1, 30, "XTR", "c", false, 0⟩], [], [],
    2, 1, 1⟩ 1 "c" 30 4
  have hz := c4_mark_refund ⟨[⟨1, none, 50, 0, 0⟩], [⟨1, 1, 30, "XTR", "c", false, 0⟩], [], [],
    2, 1, 1⟩ 1 "zz" 30 4
  have hs := (h.2 ⟨1, 1, 30, "XTR", "c", false, 0⟩ (by decide)).2.2.2 rfl (by decide)
    (by decide) (by decide)
  refine ⟨hs.1, ?_, hz.1 (by decide)⟩
  rw [hs.2.1]
  rfl

end StarBot

namespace StarBot

/-- C8 counterexample: with two accounts both holding balance 10, the query
`ORDER BY balance DESC LIMIT ?` (no tiebreak column) admits both orders of
the tied rows, so the result is not deterministic and is not guaranteed to
break ties by ascending id: the valid output `[id 2, id 1]` violates the
claimed order. -/
theorem c8_counterexample :
    top_balances_post (⟨[⟨1, none, 10, 0, 0⟩, ⟨2, none, 10, 0, 0⟩], [], [], [], 1, 1, 1⟩ :
        DBState) 2 [⟨2, none, 10, 0, 0⟩, ⟨1, none, 10, 0, 0⟩]
    ∧ top_balances_post (⟨[⟨1, none, 10, 0, 0⟩, ⟨2, none, 10, 0, 0⟩], [], [], [], 1, 1, 1⟩ :
        DBState) 2 [⟨1, none, 10, 0, 0⟩, ⟨2, none, 10, 0, 0⟩]
    ∧ ([(⟨2, none, 10, 0, 0⟩ : User), ⟨1, none, 10, 0, 0⟩] ≠
        [(⟨1, none, 10, 0, 0⟩ : User), ⟨2, none, 10, 0, 0⟩])
    ∧ ¬ List.Pairwise topOrder [(⟨2, none, 10, 0, 0⟩ : User), ⟨1, none, 10, 0, 0⟩] := by
  refine ⟨⟨[⟨2, none, 10, 0, 0⟩, ⟨1, none, 10, 0, 0⟩], ?_, ?_, rfl⟩,
    ⟨[⟨1, none, 10, 0, 0⟩, ⟨2, none, 10, 0, 0⟩], List.Perm.refl _, ?_, rfl⟩, ?_, ?_⟩
  · exact List.Perm.swap _ _ _
  · unfold balanceDescSorted balanceGe
    decide
  · unfold balanceDescSorted balanceGe
    decide
  · decide
  · unfold topOrder
    decide

/-- C8 (amended): every output the query semantics admits for
`top_balances(limit)` holds at most `limit` accounts, weakly ordered by
balance descending; the order among equal balances — and hence full
determinism — is not fixed by the query. -/
theorem c8_top_balances (s : DBState) (limit : Nat) (out : List User)
    (h : top_balances_post s limit out) :
    balanceDescSorted out ∧ out.length = min limit s.users.length ∧ out.length ≤ limit := by
  rcases h with ⟨perm, hp, hs, rfl⟩
  refine ⟨?_, ?_, ?_⟩
  · exact List.Pairwise.sublist (List.take_sublist limit perm) hs
  · rw [List.length_take, hp.length_eq]
  · rw [List.length_take]
    exact min_le_left _ _

/-- C8 witness: on a single-account database the admitted output is that
account, sorted, of length `min 5 1`. -/
theorem c8_witness :
    balanceDescSorted [(⟨1, none, 10, 0, 0⟩ : User)]
    ∧ ([(⟨1, none, 10, 0, 0⟩ : User)] : List User).length =
        min 5 (⟨[⟨1, none, 10, 0, 0⟩], [], [], [], 1, 1, 1⟩ : DBState).users.length
    ∧ ([(⟨1, none, 10, 0, 0⟩ : User)] : List User).length ≤ 5 := by
  have h := c8_top_balances ⟨[⟨1, none, 10, 0, 0⟩], [], [], [], 1, 1, 1⟩ 5
    [⟨1, none, 10, 0, 0⟩]
    ⟨[⟨1, none, 10, 0, 0⟩], List.Perm.refl _, by unfold balanceDescSorted balanceGe; decide, rfl⟩
  exact h

theorem laterPayment_none (b : Payment) : laterPayment none b = some b := rfl

theorem laterPayment_some (a b : Payment) :
    laterPayment (some a) b =
      if a.created_at < b.created_at then some b else some a := rfl

/-- Folding `laterPayment` yields a row of the list (or the accumulator)
whose `created_at` bounds every fold input. -/
theorem foldl_laterPayment_spec (l : List Payment) (acc : Option Payment) (p : Payment)
    (h : l.foldl laterPayment acc = some p) :
    (p ∈ l ∨ acc = some p)
    ∧ (∀ q ∈ l, q.created_at ≤ p.created_at)
    ∧ (∀ a, acc = some a → a.created_at ≤ p.created_at) := by
  induction l generalizing acc with
  | nil =>
    refine ⟨Or.inr h, ?_, ?_⟩
    · intro q hq
      cases hq
    · intro a ha
      rw [ha] at h
      cases h
      exact le_refl _
  | cons b l ih =>
    rw [List.foldl_cons] at h
    obtain ⟨h1, h2, h3⟩ := ih (laterPayment acc b) h
    have hbp : b.created_at ≤ p.created_at := by
      cases acc with
      | none => exact h3 b rfl
      | some a =>
        by_cases hab : a.created_at < b.created_at
        · exact h3 b (by rw [laterPayment_some, if_pos hab])
        · have := h3 a (by rw [laterPayment_some, if_neg hab])
          omega
    refine ⟨?_, ?_, ?_⟩
    · rcases h1 with h1 | h1
      · exact Or.inl (List.mem_cons_of_mem b h1)
      · cases acc with
        | none =>
          rw [laterPayment_none] at h1
          cases h1
          exact Or.inl (List.mem_cons_self _ _)
        | some a =>
          by_cases hab : a.created_at < b.created_at
          · rw [laterPayment_some, if_pos hab] at h1
            cases h1
            exact Or.inl (List.mem_cons_self _ _)
          · rw [laterPayment_some, if_neg hab] at h1
            exact Or.inr h1
    · intro q hq
      rcases List.mem_cons.mp hq with hq | hq
      · rw [hq]
        exact hbp
      · exact h2 q hq
    · intro a ha
      subst ha
      by_cases hab : a.created_at < b.created_at
      · omega
      · exact h3 a (by rw [laterPayment_some, if_neg hab])

/-- Folding `laterPayment` over a nonempty list from `some` never gives
`none`. -/
theorem foldl_laterPayment_some (l : List Payment) (a : Payment) :
    ∃ p, l.foldl laterPayment (some a) = some p := by
  induction l generalizing a with
  | nil => exact ⟨a, rfl⟩
  | cons b l ih =>
    rw [List.foldl_cons]
    by_cases hab : a.created_at < b.created_at
    · rw [laterPayment_some, if_pos hab]
      exact ih b
    · rw [laterPayment_some, if_neg hab]
      exact ih a

theorem foldl_laterPayment_none_iff (l : List Payment) :
    l.foldl laterPayment none = none ↔ l = [] := by
  cases l with
  | nil => simp
  | cons b l =>
    simp only [List.foldl_cons]
    constructor
    · intro h
      obtain ⟨p, hp⟩ := foldl_laterPayment_some l b
      rw [show laterPayment none b = some b from rfl] at h
      rw [hp] at h
      cases h
    · intro h
      cases h

/-- C9: `get_payment_for_amount` commits no write; it returns `none` exactly
when the account has no non-refunded payment of that amount; and a returned
record belongs to the account, matches the amount, has `refunded = false`
(a refunded record is never returned), and is most recent: its `created_at`
bounds that of every matching non-refunded record. -/
theorem c9_get_payment_for_amount (s : DBState) (uid : Nat) (amount : Int) :
    (get_payment_for_amount_call s uid amount).2 = s
    ∧ (get_payment_for_amount s uid amount = none ↔
        ∀ p ∈ s.payments, ¬ (p.user_id = uid ∧ p.amount = amount ∧ p.refunded = false))
    ∧ (∀ p, get_payment_for_amount s uid amount = some p →
        p ∈ s.payments ∧ p.user_id = uid ∧ p.amount = amount ∧ p.refunded = false
        ∧ (∀ q ∈ s.payments, q.user_id = uid → q.amount = amount → q.refunded = false →
            q.created_at ≤ p.created_at)) := by
  have hmemf : ∀ q : Payment, q ∈ s.payments.filter
      (fun p => p.user_id == uid && p.amount == amount && p.refunded == false) ↔
      q ∈ s.payments ∧ q.user_id = uid ∧ q.amount = amount ∧ q.refunded = false := by
    intro q
    rw [List.mem_filter]
    simp [and_assoc]
  refine ⟨rfl, ?_, ?_⟩
  · unfold get_payment_for_amount
    rw [foldl_laterPayment_none_iff, List.filter_eq_nil_iff]
    constructor
    · intro h p hp hcond
      exact h p hp (by simp [hcond.1, hcond.2.1, hcond.2.2])
    · intro h p hp hcond
      apply h p hp
      simp only [Bool.and_eq_true, beq_iff_eq] at hcond
      exact ⟨hcond.1.1, hcond.1.2, by simpa using hcond.2⟩
  · intro p hp
    unfold get_payment_for_amount at hp
    obtain ⟨h1, h2, _⟩ := foldl_laterPayment_spec _ none p hp
    rcases h1 with h1 | h1
    · obtain ⟨hm, hu, ha, hr⟩ := (hmemf p).mp h1
      refine ⟨hm, hu, ha, hr, ?_⟩
      intro q hq hqu hqa hqr
      exact h2 q ((hmemf q).mpr ⟨hq, hqu, hqa, hqr⟩)
    · cases h1

/-- C9 witness: among two matching non-refunded payments (timestamps 1 and
5) and a refunded one (timestamp 9), the call returns the non-refunded row
with timestamp 5, the state unchanged. -/
theorem c9_witness :
    (get_payment_for_amount_call (⟨[⟨1, none, 0, 0, 0⟩],
        [⟨1, 1, 50, "XTR", "a", false, 1⟩, ⟨2, 1, 50, "XTR", "b", false, 5⟩,
         ⟨3, 1, 50, "XTR", "d", true, 9⟩], [], [], 4, 1, 1⟩ : DBState) 1 50).2 =
      (⟨[⟨1, none, 0, 0, 0⟩],
        [⟨1, 1, 50, "XTR", "a", false, 1⟩, ⟨2, 1, 50, "XTR", "b", false, 5⟩,
         ⟨3, 1, 50, "XTR", "d", true, 9⟩], [], [], 4, 1, 1⟩ : DBState)
    ∧ get_payment_for_amount (⟨[⟨1, none, 0, 0, 0⟩],
        [⟨1, 1, 50, "XTR", "a", false, 1⟩, ⟨2, 1, 50, "XTR", "b", false, 5⟩,
         ⟨3, 1, 50, "XTR", "d", true, 9⟩], [], [], 4, 1, 1⟩ : DBState) 1 50 =
        some ⟨2, 1, 50, "XTR", "b", false, 5⟩
    ∧ (⟨2, 1, 50, "XTR", "b", false, 5⟩ : Payment).refunded = false
    ∧ (∀ q ∈ (⟨[⟨1, none, 0, 0, 0⟩],
        [⟨1, 1, 50, "XTR", "a", false, 1⟩, ⟨2, 1, 50, "XTR", "b", false, 5⟩,
         ⟨3, 1, 50, "XTR", "d", true, 9⟩], [], [], 4, 1, 1⟩ : DBState).payments,
        q.user_id = 1 → q.amount = 50 → q.refunded = false → q.created_at ≤ 5) := by
  have h := c9_get_payment_for_amount ⟨[⟨1, none, 0, 0, 0⟩],
    [⟨1, 1, 50, "XTR", "a", false, 1⟩, ⟨2, 1, 50, "XTR", "b", false, 5⟩,
     ⟨3, 1, 50, "XTR", "d", true, 9⟩], [], [], 4, 1, 1⟩ 1 50
  have hsome : get_payment_for_amount (⟨[⟨1, none, 0, 0, 0⟩],
      [⟨1, 1, 50, "XTR", "a", false, 1⟩, ⟨2, 1, 50, "XTR", "b", false, 5⟩,
       ⟨3, 1, 50, "XTR", "d", true, 9⟩], [], [], 4, 1, 1⟩ : DBState) 1 50 =
      some ⟨2, 1, 50, "XTR", "b", false, 5⟩ := by decide
  have h3 := h.2.2 _ hsome
  exact ⟨h.1, hsome, h3.2.2.2.1, h3.2.2.2.2⟩

end StarBot

namespace StarBot

theorem join_chunks_take {α : Type} (c : Nat) (l : List α) (m : Nat) :
    ((List.range m).map (fun k => (l.drop (c * k)).take c)).flatten = l.take (c * m) := by
  induction m with
  | zero => simp
  | succ m ih =>
    rw [List.range_succ, List.map_append, List.flatten_append, ih]
    simp only [List.map_cons, List.map_nil, List.flatten_cons, List.flatten_nil, List.append_nil]
    rw [← List.take_add, Nat.mul_succ]

/-- Concatenating all pages of size 20 reproduces the whole list. -/
theorem join_chunks_twenty {α : Type} (l : List α) :
    ((List.range ((l.length + 19) / 20)).map (fun k => (l.drop (20 * k)).take 20)).flatten = l := by
  rw [join_chunks_take]
  apply List.take_of_length_le
  have hdm := Nat.div_add_mod (l.length + 19) 20
  have hml : (l.length + 19) % 20 < 20 := Nat.mod_lt _ (by omega)
  omega

/-- C7: `get_transactions` pages through the account's ledger rows sorted by
`(created_at DESC, id DESC)`: each page is a `drop`/`take` slice of one
fixed sorted listing; that listing is a permutation of the account's rows
(no omissions, no additions) of length `count_transactions`; concatenating
all `limit=20` pages reproduces it exactly; and — ids being never reused —
it has no duplicates and is strictly decreasing in the `(created_at, id)`
key, a total order. -/
theorem c7_pagination (s : DBState) (uid : Nat)
    (hids : ((s.transactions.filter (fun e => e.user_id == uid)).map
      (fun e => e.id)).Nodup) :
    (∀ limit offset, get_transactions s uid limit offset =
        ((all_transactions s uid).drop offset).take limit)
    ∧ (all_transactions s uid).Perm (s.transactions.filter (fun e => e.user_id == uid))
    ∧ (all_transactions s uid).length = count_transactions s uid
    ∧ ((List.range ((count_transactions s uid + 19) / 20)).map
        (fun k => get_transactions s uid 20 (20 * k))).flatten = all_transactions s uid
    ∧ (all_transactions s uid).Nodup
    ∧ (all_transactions s uid).Pairwise txnLt := by
  have hperm : (all_transactions s uid).Perm
      (s.transactions.filter (fun e => e.user_id == uid)) :=
    List.perm_insertionSort txnLe _
  have hlen : (all_transactions s uid).length = count_transactions s uid :=
    hperm.length_eq
  have hnd : (all_transactions s uid).Nodup :=
    hperm.symm.nodup (List.Nodup.of_map (fun e => e.id) hids)
  have hidsL : ((all_transactions s uid).map (fun e => e.id)).Nodup :=
    (hperm.map (fun e => e.id)).symm.nodup hids
  have hsorted : (all_transactions s uid).Pairwise txnLe :=
    List.sorted_insertionSort txnLe _
  have hne : (all_transactions s uid).Pairwise (fun a b => a.id ≠ b.id) :=
    List.pairwise_map.mp hidsL
  refine ⟨fun limit offset => rfl, hperm, hlen, ?_, hnd, ?_⟩
  · rw [← hlen]
    exact join_chunks_twenty (all_transactions s uid)
  · refine (hsorted.and hne).imp ?_
    intro a b hab
    obtain ⟨h1, h2⟩ := hab
    unfold txnLe at h1
    unfold txnLt
    omega

/-- C7 witness: an account with three ledger rows, two sharing a timestamp,
pages out in strictly decreasing `(created_at, id)` order, one 20-page
concatenation reproducing all three rows. -/
theorem c7_witness :
    ((List.range ((count_transactions (⟨[], [], [],
        [⟨1, 1, .purchase, 5, none, some "a", none, some 5, 3⟩,
         ⟨2, 1, .purchase, 7, none, some "b", none, some 12, 3⟩,
         ⟨3, 2, .purchase, 9, none, some "c", none, some 9, 4⟩], 1, 1, 4⟩ : DBState) 1 + 19) /
          20)).map
      (fun k => get_transactions (⟨[], [], [],
        [⟨1, 1, .purchase, 5, none, some "a", none, some 5, 3⟩,
         ⟨2, 1, .purchase, 7, none, some "b", none, some 12, 3⟩,
         ⟨3, 2, .purchase, 9, none, some "c", none, some 9, 4⟩], 1, 1, 4⟩ : DBState) 1 20
        (20 * k))).flatten =
      all_transactions (⟨[], [], [],
        [⟨1, 1, .purchase, 5, none, some "a", none, some 5, 3⟩,
         ⟨2, 1, .purchase, 7, none, some "b", none, some 12, 3⟩,
         ⟨3, 2, .purchase, 9, none, some "c", none, some 9, 4⟩], 1, 1, 4⟩ : DBState) 1
    ∧ (all_transactions (⟨[], [], [],
        [⟨1, 1, .purchase, 5, none, some "a", none, some 5, 3⟩,
         ⟨2, 1, .purchase, 7, none, some "b", none, some 12, 3⟩,
         ⟨3, 2, .purchase, 9, none, some "c", none, some 9, 4⟩], 1, 1, 4⟩ : DBState) 1).Pairwise
        txnLt
    ∧ (all_transactions (⟨[], [], [],
        [⟨1, 1, .purchase, 5, none, some "a", none, some 5, 3⟩,
         ⟨2, 1, .purchase, 7, none, some "b", none, some 12, 3⟩,
         ⟨3, 2, .purchase, 9, none, some "c", none, some 9, 4⟩], 1, 1, 4⟩ : DBState) 1).Nodup := by
  have h := c7_pagination (⟨[], [], [],
    [⟨1, 1, .purchase, 5, none, some "a", none, some 5, 3⟩,
     ⟨2, 1, .purchase, 7, none, some "b", none, some 12, 3⟩,
     ⟨3, 2, .purchase, 9, none, some "c", none, some 9, 4⟩], 1, 1, 4⟩ : DBState) 1 (by decide)
  exact ⟨h.2.2.2.1, h.2.2.2.2.2, h.2.2.2.2.1⟩

end StarBot
